import Mathlib

/-! Blog-App-Backend: authentication middleware, validation layer and store handlers.

A shallow embedding of `backend/routes/Middlewares/authentication.js`,
`backend/routes/Schemas/*.js`, `backend/routes/user.js`, `backend/routes/blog.js`
and the document shapes of `backend/db.js`.

Conventions of the embedding:
* a JavaScript value that may be `undefined` is an `Option`;
* request bodies and token payloads are `Json` values (numbers are integers);
* the document store is a pair of lists (users, blogs) in insertion order, and a
  handler is a function from the store and the request to a response and the new store;
* what the repository takes from its environment (the signing secret and the token
  library, the password hasher, the `PREFERENCES` constant of `constants.js`, the
  ObjectId / Number / Date casts of the object-document mapper, the clock) is a field
  of `Env`.
-/

set_option autoImplicit false

namespace BlogApp

/-! ## JSON values -/

/-- A JSON value as delivered by the body parser or decoded from a token. A number is
an integer that a double holds exactly; fractions and integers beyond that range are
outside the embedding. -/
inductive Json where
  | null
  | bool (b : Bool)
  | num (n : Int)
  | str (s : String)
  | arr (items : List Json)
  | obj (fields : List (String × Json))

namespace Json

/-- Own-property lookup in a field list. -/
def lookup (k : String) : List (String × Json) → Option Json
  | [] => none
  | (k', v) :: rest => if k' = k then some v else lookup k rest

/-- Property read `v[k]` on a non-null value: `undefined` (`none`) unless `v` is an
object that has the key. -/
def get? (v : Json) (k : String) : Option Json :=
  match v with
  | obj fields => lookup k fields
  | _ => none

/-- JavaScript truthiness. -/
def truthy : Json → Bool
  | null => false
  | bool b => b
  | num n => n != 0
  | str s => s != ""
  | arr _ => true
  | obj _ => true

/-- The name zod reports for the type of a value (`getParsedType`). -/
def typeName : Json → String
  | null => "null"
  | bool _ => "boolean"
  | num _ => "number"
  | str _ => "string"
  | arr _ => "array"
  | obj _ => "object"

end Json

/-- Truthiness of a possibly `undefined` value. -/
def truthy? : Option Json → Bool
  | none => false
  | some v => v.truthy

/-! ## JavaScript string primitives -/

/-- Line terminators, the characters the regular-expression dot does not match. -/
def isLineTerminator (c : Char) : Bool :=
  c.val = 0x0A || c.val = 0x0D || c.val = 0x2028 || c.val = 0x2029

/-- White space and line terminators, the characters `String.prototype.trim` strips. -/
def isJsSpace (c : Char) : Bool :=
  c.val = 0x09 || c.val = 0x0A || c.val = 0x0B || c.val = 0x0C || c.val = 0x0D ||
  c.val = 0x20 || c.val = 0xA0 || c.val = 0x1680 ||
  (0x2000 ≤ c.val && c.val ≤ 0x200A) ||
  c.val = 0x2028 || c.val = 0x2029 || c.val = 0x202F || c.val = 0x205F ||
  c.val = 0x3000 || c.val = 0xFEFF

/-- Drop leading white space. -/
def trimStart : List Char → List Char
  | [] => []
  | c :: cs => if isJsSpace c then trimStart cs else c :: cs

/-- The method `String.prototype.trim`. -/
def jsTrim (s : String) : String :=
  String.mk (trimStart (trimStart s.data).reverse).reverse

/-- Length in UTF-16 code units (`s.length`). -/
def jsLength (s : String) : Nat :=
  (s.data.map fun c => if c.val < 0x10000 then 1 else 2).sum

/-- Strip a literal from the front of a string, if it is there. -/
def dropLiteral : List Char → List Char → Option (List Char)
  | [], s => some s
  | _ :: _, [] => none
  | p :: ps, c :: cs => if p = c then dropLiteral ps cs else none

/-- Segments of `s.split(" ")` on a character list. -/
def splitOnSpace : List Char → List (List Char)
  | [] => [[]]
  | c :: cs =>
    if c = ' ' then [] :: splitOnSpace cs
    else
      match splitOnSpace cs with
      | [] => [[c]]
      | seg :: rest => (c :: seg) :: rest

/-- The call `s.split(" ")`. -/
def jsSplitSpace (s : String) : List String :=
  (splitOnSpace s.data).map String.mk

/-- The call `xs.join(sep)` on strings. -/
def jsJoin (sep : String) : List String → String
  | [] => ""
  | [x] => x
  | x :: y :: rest => x ++ sep ++ jsJoin sep (y :: rest)

/-! ## Documents and the store (`db.js`) -/

/-- A document of the `Users` collection. The members `first` and `last` of `name` may
be absent: an update that names `name` replaces the whole object. -/
structure User where
  _id : String
  username : String
  first : Option String
  last : Option String
  password : String
  email : String
  preferences : List String

/-- The `likes` sub-object of a blog. -/
structure Likes where
  count : Int
  users : List String

/-- An entry of `comments`. -/
structure Comment where
  user : Option String
  message : Option String

/-- A document of the `Blogs` collection. -/
structure Blog where
  _id : String
  author : String
  title : String
  body : String
  likes : Likes
  comments : List Comment
  authoredDate : Int
  tags : List String

/-- The two collections, each in insertion order. -/
structure Store where
  users : List User
  blogs : List Blog

/-! ## Environment, requests, responses -/

/-- The ways a store operation fails; the text of the error is the mapper's. -/
inductive StoreError where
  /-- A value cannot be cast to the type of the named path. -/
  | cast (path : String)
  /-- Document validation failed at the named paths. -/
  | validation (paths : List String)
  /-- A unique index on the named path already holds the value. -/
  | duplicateKey (path : String)
  /-- An update would change the immutable `_id` of the matched document. -/
  | immutableId
  /-- The pattern of a `$regex` filter is not a regular expression. -/
  | invalidRegex (pattern : String)

/-- What the handlers take from outside the repository. -/
structure Env where
  /-- The constant `PREFERENCES` of `constants.js`. -/
  PREFERENCES : List String
  /-- The call `jwt.verify(token, JWT_SECRET)`: the decoded payload, or the message of
  the error it throws. The token may be `undefined`. The library never returns `null`. -/
  verify : Option String → Except String Json
  /-- The call `jwt.sign({ userId: id }, JWT_SECRET)`. -/
  sign : String → String
  /-- The method `createHash` of a user document (salted hash of the plain text). -/
  createHash : String → String
  /-- The call `bcrypt.compare(candidate, stored)`. -/
  compare : String → String → Bool
  /-- The email test of zod's `z.string().email()`. -/
  isEmail : String → Bool
  /-- The method `String.prototype.toLowerCase`. -/
  toLowerCase : String → String
  /-- Cast of a value to an ObjectId (its hex string); `none` is a cast error. -/
  castObjectId : Json → Option String
  /-- Cast of a value to a Number; `none` is a cast error. -/
  castNumber : Json → Option Int
  /-- Cast of a value to a Date (epoch milliseconds); `none` is a cast error. -/
  castDate : Json → Option Int
  /-- Identifier generated for the next document, given the identifiers in use. -/
  newId : List String → String
  /-- The `message` of the error the mapper throws for a store failure. -/
  describe : StoreError → String
  /-- The test of a `{ $regex: pattern, $options: "i" }` filter on a string: whether the
  regular expression matches somewhere in it, ignoring case; `none` when the pattern is
  not a regular expression. -/
  regexI : String → Option (String → Bool)
  /-- The JSON serialisation of a blog document in a response. -/
  blogJson : Blog → Json
  /-- The clock `Date.now()`. -/
  now : Int

/-- The part of an Express request the handlers read. -/
structure Request where
  /-- The header `req.headers.authorization`. -/
  authorization : Option String := none
  /-- The parsed body `req.body`. -/
  body : Json := Json.obj []
  /-- The route parameter `req.params.id`. -/
  paramId : String := ""
  /-- The query parameter `req.query.filter`. -/
  filter : Option String := none
  /-- The property `req.userId` set by `authMiddleware`. -/
  userId : Option Json := none

/-- A response: `res.status(status).json(body)`; the body keeps its keys in source
order and omits keys whose value is `undefined`. -/
structure Response where
  status : Nat
  body : List (String × Json)

/-- Build a JSON body, dropping `undefined` values as `JSON.stringify` does. -/
def jsonBody (fields : List (String × Option Json)) : List (String × Json) :=
  fields.filterMap fun kv => kv.2.map fun v => (kv.1, v)

/-- A field of a response body. -/
def Response.field (r : Response) (k : String) : Option Json :=
  Json.lookup k r.body

/-! ## Authentication middleware (`Middlewares/authentication.js`) -/

/-- The test `/^Bearer .+$/` of `AuthSchema`: the literal `Bearer `, then one or more
characters none of which is a line terminator, up to the end of the input. -/
def authSchemaMatches (auth : String) : Bool :=
  match dropLiteral "Bearer ".data auth.data with
  | some rest => !rest.isEmpty && rest.all fun c => !isLineTerminator c
  | none => false

/-- The expression `auth.split(" ")[1]`. -/
def extractToken (auth : String) : Option String :=
  (jsSplitSpace auth)[1]?

/-- What one run of `authMiddleware` did: the tokens it passed to `jwt.verify`, the
response it sent (if any), the value it stored in `req.userId` (if any) and how many
times it called `next()`. -/
structure AuthOutcome where
  verified : List (Option String)
  response : Option Response
  userId : Option Json
  nextCalls : Nat

/-- The function `authMiddleware`. -/
def authMiddleware (env : Env) (req : Request) : AuthOutcome :=
  match req.authorization with
  | none =>
    { verified := [], userId := none, nextCalls := 0,
      response := some ⟨401, [("error", .str "Unauthorized"),
        ("message", .str "Access Token is missing"), ("success", .bool false)]⟩ }
  | some auth =>
    if auth = "" then
      { verified := [], userId := none, nextCalls := 0,
        response := some ⟨401, [("error", .str "Unauthorized"),
          ("message", .str "Access Token is missing"), ("success", .bool false)]⟩ }
    else if !authSchemaMatches auth then
      { verified := [], userId := none, nextCalls := 0,
        response := some ⟨400, [("error", .str "Bad request"),
          ("message", .str "Invalid authorization key."), ("success", .bool false)]⟩ }
    else
      let token := extractToken auth
      match env.verify token with
      | .ok .null =>
        -- `decoded.userId` on `null` throws a TypeError, caught below
        { verified := [token], userId := none, nextCalls := 0,
          response := some ⟨500, [("error", .str "Internal server error"),
            ("message", .str "Cannot read properties of null (reading 'userId')"),
            ("success", .bool false)]⟩ }
      | .ok decoded =>
        if truthy? (decoded.get? "userId") then
          { verified := [token], userId := decoded.get? "userId", nextCalls := 1,
            response := none }
        else
          { verified := [token], userId := none, nextCalls := 0,
            response := some ⟨401, [("error", .str "Unauthorized"),
              ("message", .str "Invalid Access token supplied"), ("success", .bool false)]⟩ }
      | .error message =>
        { verified := [token], userId := none, nextCalls := 0,
          response := some ⟨500, [("error", .str "Internal server error"),
            ("message", .str message), ("success", .bool false)]⟩ }

/-- The response of `authMiddleware` to a request without credentials. -/
def missingTokenResponse : Response :=
  ⟨401, [("error", .str "Unauthorized"), ("message", .str "Access Token is missing"),
         ("success", .bool false)]⟩

/-! ## Validation layer: the zod combinators the schemas use -/

/-- A segment of an issue path: an object key or an array index. -/
inductive Seg where
  | key (k : String)
  | idx (i : Nat)

/-- A path segment as `Array.prototype.join` prints it. -/
def Seg.render : Seg → String
  | key k => k
  | idx i => toString i

/-- A path segment as a JSON value. -/
def Seg.toJson : Seg → Json
  | key k => .str k
  | idx i => .num i

/-- A validation issue: where and what. -/
structure Issue where
  path : List Seg
  message : String

/-- Result of parsing a value: the issues added, in order, and whether the parse was
aborted (an invalid type or enum value) rather than merely marked dirty. -/
structure Parse where
  issues : List Issue
  aborted : Bool

/-- A schema parses the value found at a path; `none` is `undefined`. -/
abbrev Schema := List Seg → Option Json → Parse

/-- Checks and transforms of a `z.string()` chain. -/
inductive StringCheck where
  | min (n : Nat) (message : String)
  | max (n : Nat) (message : String)
  | email (message : String)
  | trim
  | toLowerCase

/-- Run the checks of a string schema in order over the (running) input. -/
def runStringChecks (env : Env) (path : List Seg) :
    List StringCheck → String → List Issue
  | [], _ => []
  | .min n message :: rest, s =>
    (if jsLength s < n then [⟨path, message⟩] else []) ++ runStringChecks env path rest s
  | .max n message :: rest, s =>
    (if jsLength s > n then [⟨path, message⟩] else []) ++ runStringChecks env path rest s
  | .email message :: rest, s =>
    (if env.isEmail s then [] else [⟨path, message⟩]) ++ runStringChecks env path rest s
  | .trim :: rest, s => runStringChecks env path rest (jsTrim s)
  | .toLowerCase :: rest, s => runStringChecks env path rest (env.toLowerCase s)

/-- The schema `z.string()` followed by a chain of checks. -/
def zString (env : Env) (checks : List StringCheck) : Schema := fun path v =>
  match v with
  | none => ⟨[⟨path, "Required"⟩], true⟩
  | some (.str s) => ⟨runStringChecks env path checks s, false⟩
  | some other => ⟨[⟨path, "Expected string, received " ++ other.typeName⟩], true⟩

/-- The helper `util.joinValues` of zod. -/
def joinValues (values : List String) : String :=
  jsJoin " | " (values.map fun v => "'" ++ v ++ "'")

/-- The schema `z.enum(values)`. -/
def zEnum (values : List String) : Schema := fun path v =>
  match v with
  | none => ⟨[⟨path, "Required"⟩], true⟩
  | some (.str s) =>
    if values.contains s then ⟨[], false⟩
    else ⟨[⟨path, "Invalid enum value. Expected " ++ joinValues values ++
            ", received '" ++ s ++ "'"⟩], true⟩
  | some other =>
    ⟨[⟨path, "Expected " ++ joinValues values ++ ", received " ++ other.typeName⟩], true⟩

/-- Parse the elements of an array from index `i` on. -/
def parseElements (elem : Schema) (path : List Seg) : Nat → List Json → Parse
  | _, [] => ⟨[], false⟩
  | i, x :: xs =>
    let head := elem (path ++ [.idx i]) (some x)
    let tail := parseElements elem path (i + 1) xs
    ⟨head.issues ++ tail.issues, head.aborted || tail.aborted⟩

/-- The schema `z.array(elem)`, with `.min(n, { message })` when `minLength` is given. -/
def zArray (elem : Schema) (minLength : Option (Nat × String)) : Schema := fun path v =>
  match v with
  | none => ⟨[⟨path, "Required"⟩], true⟩
  | some (.arr xs) =>
    let tooSmall : List Issue :=
      match minLength with
      | some (n, message) => if xs.length < n then [⟨path, message⟩] else []
      | none => []
    let elems := parseElements elem path 0 xs
    ⟨tooSmall ++ elems.issues, elems.aborted⟩
  | some other => ⟨[⟨path, "Expected array, received " ++ other.typeName⟩], true⟩

/-- The method `.refine(check, { message })`: the check runs unless the inner parse
was aborted. -/
def zRefine (inner : Schema) (check : Json → Bool) (message : String) : Schema :=
  fun path v =>
    let r := inner path v
    if r.aborted then r
    else
      match v with
      | some x => if check x then r else ⟨r.issues ++ [⟨path, message⟩], false⟩
      | none => r

/-- The method `.optional()`: `undefined` is accepted as is. -/
def zOptional (inner : Schema) : Schema := fun path v =>
  match v with
  | none => ⟨[], false⟩
  | some x => inner path (some x)

/-- Parse the declared keys of an object in declaration order. -/
def parseShape (path : List Seg) (data : Json) : List (String × Schema) → Parse
  | [] => ⟨[], false⟩
  | (k, schema) :: rest =>
    let head := schema (path ++ [.key k]) (data.get? k)
    let tail := parseShape path data rest
    ⟨head.issues ++ tail.issues, head.aborted || tail.aborted⟩

/-- The schema `z.object(shape)`; unknown keys are ignored (zod's default). -/
def zObject (shape : List (String × Schema)) : Schema := fun path v =>
  match v with
  | none => ⟨[⟨path, "Required"⟩], true⟩
  | some (.obj fields) => parseShape path (.obj fields) shape
  | some other => ⟨[⟨path, "Expected object, received " ++ other.typeName⟩], true⟩

/-- The call `schema.safeParse(data).error.issues`; parsing succeeds exactly when the
list is empty. -/
def safeParse (schema : Schema) (data : Json) : List Issue :=
  (schema [] (some data)).issues

/-- The check `preferences.every(preference => PREFERENCES.includes(preference))`. -/
def everyIncluded (env : Env) : Json → Bool
  | .arr xs => xs.all fun x =>
      match x with
      | .str s => env.PREFERENCES.contains s
      | _ => false
  | _ => false

/-- The message of the `refine` on preference and tag arrays. -/
def preferencesMessage (env : Env) : String :=
  "Preferences must be one of the following: " ++ jsJoin ", " env.PREFERENCES

/-! ## The schemas of `Schemas/user.js` and `Schemas/blog.js` -/

/-- The schema `userSignUpSchema`. -/
def userSignUpSchema (env : Env) : Schema :=
  zObject [
    ("username", zString env [.min 1 "username cannot be empty",
      .max 30 "username can be more than 30 characters long ", .trim, .toLowerCase]),
    ("name", zObject [
      ("first", zString env [.min 1 "first-name cannot be empty",
        .max 50 "first-name cannot have more than 50 characters.", .trim]),
      ("last", zString env [.min 1 "last-name cannot be empty",
        .max 50 "last-name cannot have more than 50 characters.", .trim])]),
    ("password", zString env [.min 6 "Password must be 6 or more characters long", .trim]),
    ("email", zString env [.email "Invalid email address", .trim, .toLowerCase]),
    ("preferences", zRefine
      (zArray (zEnum env.PREFERENCES) (some (3, "Atleast 3 preferences must be selected")))
      (everyIncluded env) (preferencesMessage env))]

/-- The schema `userLoginSchema`. -/
def userLoginSchema (env : Env) : Schema :=
  zObject [
    ("email", zString env [.email "Invalid email address", .trim, .toLowerCase]),
    ("password", zString env [.min 6 "Password must be 6 or more characters long", .trim])]

/-- The schema `userUpdateSchema`. -/
def userUpdateSchema (env : Env) : Schema :=
  zObject [
    ("username", zOptional (zString env [.min 1 "username cannot be empty",
      .max 30 "username can be more than 30 characters long ", .trim, .toLowerCase])),
    ("name", zOptional (zObject [
      ("first", zOptional (zString env [.min 1 "first-name cannot be empty",
        .max 50 "first-name cannot have more than 50 characters.", .trim])),
      ("last", zOptional (zString env [.min 1 "last-name cannot be empty",
        .max 50 "last-name cannot have more than 50 characters.", .trim]))])),
    ("email", zOptional (zString env [.email "Invalid email address", .trim, .toLowerCase])),
    ("preferences", zRefine
      (zArray (zEnum env.PREFERENCES) (some (3, "Atleast 3 preferences must be selected")))
      (everyIncluded env) (preferencesMessage env))]

/-- The schema `userFilterSchema`. -/
def userFilterSchema (env : Env) : Schema :=
  zString env [.max 50 "Filter must be 50 or fewer characters long", .trim]

/-- The schema `blogCreateSchema`. -/
def blogCreateSchema (env : Env) : Schema :=
  zObject [
    ("title", zString env [.min 1 "blog title can not be empty", .trim]),
    ("body", zString env [.min 1 "blog body can not be empty", .trim]),
    ("tags", zRefine (zArray (zEnum env.PREFERENCES) none)
      (everyIncluded env) (preferencesMessage env))]

/-- The schema `blogUpdateSchema`. -/
def blogUpdateSchema (env : Env) : Schema :=
  zObject [
    ("title", zOptional (zString env [.min 1 "blog title can not be empty", .trim])),
    ("body", zOptional (zString env [.min 1 "blog body can not be empty", .trim])),
    ("tags", zOptional (zRefine (zArray (zEnum env.PREFERENCES) none)
      (everyIncluded env) (preferencesMessage env)))]

/-- The schema `blogFilterSchema`. -/
def blogFilterSchema (env : Env) : Schema :=
  zString env [.max 50 "Filter must be 50 or fewer characters long", .trim]

/-- The 400 response every handler builds from the first issue of a failed parse:
the path is the reversed segments joined by `-` when there are two or more, else the
first segment (absent for an empty path). -/
def validationFailure (error : Issue) : Response :=
  ⟨400, jsonBody [
    ("path", if error.path.length > 1
      then some (.str (jsJoin "-" (error.path.reverse.map Seg.render)))
      else error.path[0]?.map Seg.toJson),
    ("error", some (.str "Bad Request")),
    ("message", some (.str error.message)),
    ("success", some (.bool false))]⟩

/-! ## Casts and validators of the schemas of `db.js` -/

/-- The mapper's cast to String: strings as they are, numbers and booleans printed, an
object through a string `_id`; anything else is a cast error. -/
def castString : Json → Option String
  | .str s => some s
  | .num n => some (toString n)
  | .bool b => some (if b then "true" else "false")
  | .obj fields =>
    match Json.lookup "_id" fields with
    | some (.str s) => some s
    | _ => none
  | _ => none

/-- Cast for a String path declared with `trim: true` (the setter also runs on query
filters and on updates). -/
def castTrimmed (v : Json) : Option String :=
  (castString v).map jsTrim

/-- Cast every element of an array with `cast`; `none` if the value is not an array or
an element fails. -/
def castArray {α : Type} (cast : Json → Option α) : Json → Option (List α)
  | .arr xs => xs.mapM cast
  | _ => none

/-- Equality filter `{ path: value }` on a trimmed String path; `undefined` or a value
that is no string matches nothing. -/
def matchesQuery (value : Option Json) (stored : String) : Bool :=
  match value.bind castTrimmed with
  | some s => s == stored
  | none => false

/-- The comparison `stored == value` for a string `stored`. -/
def looseEqString (stored : String) : Option Json → Bool
  | some (.str s) => stored == s
  | _ => false

/-- Characters of the local part in the email validator of `userSchema`. -/
def emailLocalChar (c : Char) : Bool :=
  c.isAlphanum || c = '.' || c = '_' || c = '%' || c = '-'

/-- Characters of the domain part in the email validator of `userSchema`. -/
def emailDomainChar (c : Char) : Bool :=
  c.isAlphanum || c = '.' || c = '-'

/-- The validator `/^([a-zA-Z0-9._%-]+@[a-zA-Z0-9.-]+\.[a-zA-Z]{2,})$/` of the `email`
path: the top-level label (two or more letters) follows the last dot. -/
def dbEmailValid (email : String) : Bool :=
  let localPart := email.data.takeWhile (· ≠ '@')
  match email.data.dropWhile (· ≠ '@') with
  | [] => false
  | _ :: domain =>
    let tld := (domain.reverse.takeWhile (· ≠ '.')).reverse
    match domain.reverse.dropWhile (· ≠ '.') with
    | [] => false
    | _ :: host =>
      !localPart.isEmpty && localPart.all emailLocalChar &&
      !host.isEmpty && host.all emailDomainChar &&
      decide (2 ≤ tld.length) && tld.all Char.isAlpha

/-- The paths of a user document that fail the validators of `userSchema`. -/
def userInvalidPaths (env : Env) (u : User) : List String :=
  (if u.username = "" ∨ jsLength u.username > 30 then ["username"] else []) ++
  (if u.first.getD "" = "" ∨ jsLength (u.first.getD "") > 50 then ["name.first"] else []) ++
  (if u.last.getD "" = "" ∨ jsLength (u.last.getD "") > 50 then ["name.last"] else []) ++
  (if u.password = "" ∨ jsLength u.password < 6 then ["password"] else []) ++
  (if u.email = "" ∨ !dbEmailValid u.email ∨ jsLength u.email < 6 ∨ jsLength u.email > 30
    then ["email"] else []) ++
  (if u.preferences.all env.PREFERENCES.contains then [] else ["preferences"])

/-- Throw the mapper's error for a failed cast. -/
def orCastError {α : Type} (env : Env) (path : String) : Option α → Except String α
  | some a => .ok a
  | none => .error (env.describe (.cast path))

/-- Cast an optional property, with a default when it is `undefined`. -/
def castOr {α : Type} (env : Env) (path : String) (cast : Json → Option α) (dflt : α) :
    Option Json → Except String α
  | none => .ok dflt
  | some v => orCastError env path (cast v)

/-- The 500 response of a `catch` block. -/
def internalError (label message : String) : Response :=
  ⟨500, [("error", .str label), ("message", .str message), ("success", .bool false)]⟩

/-- Paths flagged when a cast failed. -/
def flag {α : Type} (path : String) (x : Option α) : List String :=
  if x.isNone then [path] else []

/-- Value of a trimmed String path of a new document: `undefined` leaves it unset (here
the empty string, which `required` rejects alike); `none` is a cast error. -/
def newString : Option Json → Option String
  | none => some ""
  | some x => castTrimmed x

/-- Value of a trimmed String member of a new document that may stay absent:
`undefined` leaves it absent; `none` is a cast error. -/
def newMember : Option Json → Option (Option String)
  | none => some none
  | some x => (castTrimmed x).map some

/-- Cast an optional property of an update; `undefined` sets nothing. -/
def castOpt {α : Type} (env : Env) (path : String) (cast : Json → Option α) :
    Option Json → Except String (Option α)
  | none => .ok none
  | some v => (orCastError env path (cast v)).map some

/-- Replace the first element that satisfies `p`. -/
def updateFirst {α : Type} (p : α → Bool) (f : α → α) : List α → List α
  | [] => []
  | x :: xs => if p x then f x :: xs else x :: updateFirst p f xs

/-! ## User routes (`routes/user.js`) -/

/-- The document built by `new Users(request)` from the casts of `userSchema`, with the
given (hashed) password, and the paths whose cast failed. -/
def userDraft (env : Env) (store : Store) (request : Json) (password : String) :
    User × List String :=
  let name := request.get? "name"
  let _id := match request.get? "_id" with
    | none => some (env.newId (store.users.map (·._id)))
    | some v => env.castObjectId v
  let username := newString (request.get? "username")
  let first := newMember (name.bind (·.get? "first"))
  let last := newMember (name.bind (·.get? "last"))
  let email := newString (request.get? "email")
  let preferences := match request.get? "preferences" with
    | none => some []
    | some v => castArray castString v
  ({ _id := _id.getD "", username := username.getD "", first := first.getD none,
     last := last.getD none, password := jsTrim password,
     email := email.getD "", preferences := preferences.getD [] },
   flag "_id" _id ++ flag "username" username ++ flag "name.first" first ++
     flag "name.last" last ++ flag "email" email ++ flag "preferences" preferences)

/-- The document `new Users(request)` with its password replaced by
`createHash(request.password)`, as `save()` inserts it: the draft, if every cast
succeeded, the validators pass and the unique indexes (`_id`, `username`, `email`)
admit it. -/
def newUser (env : Env) (store : Store) (request : Json) : Except String User :=
  match request.get? "password" with
  | some (.str plain) =>
    let draft := userDraft env store request (env.createHash plain)
    let invalid := draft.2 ++ userInvalidPaths env draft.1
    if !invalid.isEmpty then .error (env.describe (.validation invalid))
    else if store.users.any (·._id == draft.1._id) then
      .error (env.describe (.duplicateKey "_id"))
    else if store.users.any (·.username == draft.1.username) then
      .error (env.describe (.duplicateKey "username"))
    else if store.users.any (·.email == draft.1.email) then
      .error (env.describe (.duplicateKey "email"))
    else .ok draft.1
  | _ => .error "data and salt arguments required"

/-- The handler of `POST /signup`. -/
def signup (env : Env) (store : Store) (req : Request) : Response × Store :=
  let request := req.body
  match safeParse (userSignUpSchema env) request with
  | error :: _ => (validationFailure error, store)
  | [] =>
    let userAlreadyExists := store.users.find? fun u =>
      matchesQuery (request.get? "username") u.username ||
      matchesQuery (request.get? "email") u.email
    match userAlreadyExists with
    | some existing =>
      (⟨409, [("error", .str (if looseEqString existing.username (request.get? "username")
                then "This username is already taken"
                else "This email address already exists")),
              ("message", .str "User already exists"), ("success", .bool false)]⟩, store)
    | none =>
      match newUser env store request with
      | .ok createdUser =>
        (⟨200, [("token", .str (env.sign createdUser._id)),
                ("message", .str "User created successfully"), ("success", .bool true)]⟩,
         { store with users := store.users ++ [createdUser] })
      | .error message => (internalError "Internal Server Error" message, store)

/-- The handler of `POST /login`. -/
def login (env : Env) (store : Store) (req : Request) : Response × Store :=
  let request := req.body
  match safeParse (userLoginSchema env) request with
  | error :: _ => (validationFailure error, store)
  | [] =>
    match store.users.find? fun u => matchesQuery (request.get? "email") u.email with
    | none =>
      (⟨404, [("error", .str "User not found"), ("message", .str "Incorrect email address"),
              ("success", .bool false)]⟩, store)
    | some user =>
      match request.get? "password" with
      | some (.str candidate) =>
        if env.compare candidate user.password then
          (⟨200, [("token", .str (env.sign user._id)),
                  ("message", .str "User logged in successfully"), ("success", .bool true)]⟩,
           store)
        else
          (⟨401, [("error", .str "Unauthorized"),
                  ("message", .str "Incorrect password entered"), ("success", .bool false)]⟩,
           store)
      | _ =>
        (⟨500, [("error", .str "data and hash arguments required"),
                ("message", .str "Error loggin in user"), ("success", .bool false)]⟩, store)

/-- The cast of a raw request as the update document of `Users.updateOne`: every schema
path the request names is set. A `name` in the request replaces the whole `name`
object, so a member it leaves out becomes absent. -/
structure UserPatch where
  _id : Option String
  username : Option String
  name : Option (Option String × Option String)
  password : Option String
  email : Option String
  preferences : Option (List String)

/-- Cast the `name` of an update: named, it stands for the whole object, with the
members it gives. -/
def castNameUpdate (env : Env) :
    Option Json → Except String (Option (Option String × Option String))
  | none => .ok none
  | some value => do
    let first ← castOpt env "name.first" castTrimmed (value.get? "first")
    let last ← castOpt env "name.last" castTrimmed (value.get? "last")
    return some (first, last)

/-- Cast the request of `Users.updateOne(filter, request)`. -/
def castUserUpdate (env : Env) (request : Json) : Except String UserPatch := do
  let _id ← castOpt env "_id" env.castObjectId (request.get? "_id")
  let username ← castOpt env "username" castTrimmed (request.get? "username")
  let name ← castNameUpdate env (request.get? "name")
  let password ← castOpt env "password" castTrimmed (request.get? "password")
  let email ← castOpt env "email" castTrimmed (request.get? "email")
  let preferences ← castOpt env "preferences" (castArray castString)
    (request.get? "preferences")
  return { _id, username, name, password, email, preferences }

/-- Apply a cast update to the matched user. -/
def UserPatch.apply (p : UserPatch) (u : User) : User :=
  { _id := u._id, username := p.username.getD u.username,
    first := match p.name with
      | none => u.first
      | some (first, _) => first,
    last := match p.name with
      | none => u.last
      | some (_, last) => last,
    password := p.password.getD u.password,
    email := p.email.getD u.email, preferences := p.preferences.getD u.preferences }

/-- The call `Users.updateOne({ _id: userId }, request)`. -/
def updateUser (env : Env) (store : Store) (userId : Option Json) (request : Json) :
    Except String Store := do
  let id ← castOpt env "_id" env.castObjectId userId
  let patch ← castUserUpdate env request
  match store.users.find? fun u => some u._id == id with
  | none => return store
  | some u =>
    let updated := patch.apply u
    if patch._id.isSome && patch._id != some u._id then
      throw (env.describe .immutableId)
    else if store.users.any fun o => o._id != u._id && o.username == updated.username then
      throw (env.describe (.duplicateKey "username"))
    else if store.users.any fun o => o._id != u._id && o.email == updated.email then
      throw (env.describe (.duplicateKey "email"))
    else
      return { store with users := updateFirst (fun o => o._id == u._id) patch.apply store.users }

/-- The handler of `PUT /update` (user). -/
def userUpdate (env : Env) (store : Store) (req : Request) : Response × Store :=
  let request := req.body
  let userId := req.userId
  match safeParse (userUpdateSchema env) request with
  | error :: _ => (validationFailure error, store)
  | [] =>
    match updateUser env store userId request with
    | .ok store' =>
      (⟨200, [("message", .str "User-Info updated successfully"), ("success", .bool true)]⟩,
       store')
    | .error message => (internalError "Internal server error" message, store)

/-- Compile the pattern of a `$regex` filter, or throw the store's error. -/
def compileRegex (env : Env) (pattern : String) : Except String (String → Bool) :=
  match env.regexI pattern with
  | some test => .ok test
  | none => .error (env.describe (.invalidRegex pattern))

/-- The entry of a user in the response of `GET /bulk`; a member of `name` that the
document lacks is `undefined` and left out. -/
def bulkEntry (user : User) : Json :=
  .obj [("username", .str user.username),
        ("name", .obj (jsonBody [("first", user.first.map Json.str),
                                 ("last", user.last.map Json.str)])),
        ("email", .str user.email),
        ("_id", .str user._id)]

/-- The handler of `GET /bulk`. -/
def userBulk (env : Env) (store : Store) (req : Request) : Response × Store :=
  let filter := req.filter.getD ""
  match safeParse (userFilterSchema env) (.str filter) with
  | error :: _ => (validationFailure error, store)
  | [] =>
    match compileRegex env filter with
    | .ok test =>
      let users := store.users.filter fun u =>
        test u.username || u.first.any test || u.last.any test
      (⟨200, [("users", .arr (users.map bulkEntry)), ("success", .bool true),
              ("message", .str "Users fetched successfully.")]⟩, store)
    | .error message => (internalError "Internal Server Error" message, store)

/-- The `user` object in the response of `GET /details`; a member of `name` that the
document lacks is `undefined` and left out. -/
def detailsEntry (user : User) : Json :=
  .obj [("username", .str user.username),
        ("name", .obj (jsonBody [("first", user.first.map Json.str),
                                 ("last", user.last.map Json.str)])),
        ("email", .str user.email),
        ("preferences", .arr (user.preferences.map Json.str))]

/-- The call `Users.findOne({ _id: userId })` followed by the read of `user.username`,
which throws on `null`. -/
def findUserById (env : Env) (store : Store) (userId : Option Json) : Except String User := do
  let id ← castOpt env "_id" env.castObjectId userId
  match store.users.find? fun u => some u._id == id with
  | some user => return user
  | none => throw "Cannot read properties of null (reading 'username')"

/-- The handler of `GET /details`. -/
def userDetails (env : Env) (store : Store) (req : Request) : Response × Store :=
  let userId := req.userId
  match findUserById env store userId with
  | .ok user =>
    (⟨200, [("user", detailsEntry user),
            ("message", .str "Users details fetched successfully"),
            ("success", .bool true)]⟩, store)
  | .error message => (internalError "Internal Server Error" message, store)

/-! ## Blog routes (`routes/blog.js`) -/

/-- Cast an entry of `comments`. -/
def castComment (env : Env) : Json → Option Comment
  | .obj fields =>
    let user := match Json.lookup "user" fields with
      | none => some none
      | some v => (env.castObjectId v).map some
    let message := match Json.lookup "message" fields with
      | none => some none
      | some v => (castTrimmed v).map some
    match user, message with
    | some u, some m => some ⟨u, m⟩
    | _, _ => none
  | _ => none

/-- The document built by `Blogs.create({...request, author: userId })` from the casts
and defaults of `blogSchema`, with the paths whose cast failed. The default of
`likes.count` is `0` (the arrow function of the schema reads `this.users` of the
module, which is `undefined`); `likes.users` and `comments` default to empty arrays and
`authoredDate` to the clock. A `likes` that is not an object is dropped, which leaves
the defaults. -/
def blogDraft (env : Env) (store : Store) (request : Json) (userId : Option Json) :
    Blog × List String :=
  let _id := match request.get? "_id" with
    | none => some (env.newId (store.blogs.map (·._id)))
    | some v => env.castObjectId v
  let author := userId.bind env.castObjectId
  let title := newString (request.get? "title")
  let body := newString (request.get? "body")
  let likes : Option Likes := match request.get? "likes" with
    | none => some ⟨0, []⟩
    | some (.obj fields) =>
      let count := match Json.lookup "count" fields with
        | none => some 0
        | some v => env.castNumber v
      let users := match Json.lookup "users" fields with
        | none => some []
        | some v => castArray env.castObjectId v
      match count, users with
      | some c, some us => some ⟨c, us⟩
      | _, _ => none
    | some _ => some ⟨0, []⟩
  let comments := match request.get? "comments" with
    | none => some []
    | some v => castArray (castComment env) v
  let authoredDate := match request.get? "authoredDate" with
    | none => some env.now
    | some v => env.castDate v
  let tags := match request.get? "tags" with
    | none => some []
    | some v => castArray castString v
  ({ _id := _id.getD "", author := author.getD "", title := title.getD "",
     body := body.getD "", likes := likes.getD ⟨0, []⟩, comments := comments.getD [],
     authoredDate := authoredDate.getD env.now, tags := tags.getD [] },
   flag "_id" _id ++ flag "author" author ++ flag "title" title ++
     flag "body" body ++ flag "likes" likes ++ flag "comments" comments ++
     flag "authoredDate" authoredDate ++ flag "tags" tags)

/-- The paths of a blog document that fail the validators of `blogSchema` (a missing
author is already flagged by the draft). -/
def blogInvalidPaths (env : Env) (b : Blog) : List String :=
  (if b.title = "" then ["title"] else []) ++
  (if b.body = "" then ["body"] else []) ++
  (if b.tags.all env.PREFERENCES.contains then [] else ["tags"])

/-- The document inserted by `Blogs.create({...request, author: userId })`: the draft,
if every cast succeeded, the validators pass and the `_id` is not in use. -/
def newBlog (env : Env) (store : Store) (request : Json) (userId : Option Json) :
    Except String Blog :=
  let draft := blogDraft env store request userId
  let invalid := draft.2 ++ blogInvalidPaths env draft.1
  if !invalid.isEmpty then .error (env.describe (.validation invalid))
  else if store.blogs.any (·._id == draft.1._id) then
    .error (env.describe (.duplicateKey "_id"))
  else .ok draft.1

/-- The handler of `POST /create`. -/
def blogCreate (env : Env) (store : Store) (req : Request) : Response × Store :=
  let request := req.body
  let userId := req.userId
  match safeParse (blogCreateSchema env) request with
  | error :: _ => (validationFailure error, store)
  | [] =>
    let blogWithSameTitle := store.blogs.find? fun b =>
      matchesQuery (request.get? "title") b.title
    match blogWithSameTitle with
    | some _ =>
      (⟨409, [("error", .str "Conflict"), ("message", .str "Blog with same title exits"),
              ("success", .bool false)]⟩, store)
    | none =>
      match newBlog env store request userId with
      | .ok createdBlog =>
        (⟨200, [("message", .str "Blog created successfully"),
                ("blogId", .str createdBlog._id), ("success", .bool true)]⟩,
         { store with blogs := store.blogs ++ [createdBlog] })
      | .error message => (internalError "Internal Server Error" message, store)

/-- The cast of a raw request as the update document of `Blogs.updateOne`: every schema
path the request names is set. A `likes` in the request replaces the whole `likes`
object. -/
structure BlogPatch where
  _id : Option String
  author : Option String
  title : Option String
  body : Option String
  likes : Option Likes
  comments : Option (List Comment)
  authoredDate : Option Int
  tags : Option (List String)

/-- Cast the `likes` of an update: named, it stands for the whole object, and a member
it leaves out reads back as the default of the schema (`0`, the empty array). A value
that is not an object is stored as it is; the blog then reads back with both defaults. -/
def castLikesUpdate (env : Env) : Option Json → Except String (Option Likes)
  | none => .ok none
  | some (.obj fields) => do
    let count ← castOpt env "likes.count" env.castNumber (Json.lookup "count" fields)
    let users ← castOpt env "likes.users" (castArray env.castObjectId)
      (Json.lookup "users" fields)
    return some ⟨count.getD 0, users.getD []⟩
  | some _ => .ok (some ⟨0, []⟩)

/-- Cast the request of `Blogs.updateOne(filter, request)`. -/
def castBlogUpdate (env : Env) (request : Json) : Except String BlogPatch := do
  let _id ← castOpt env "_id" env.castObjectId (request.get? "_id")
  let author ← castOpt env "author" env.castObjectId (request.get? "author")
  let title ← castOpt env "title" castTrimmed (request.get? "title")
  let body ← castOpt env "body" castTrimmed (request.get? "body")
  let likes ← castLikesUpdate env (request.get? "likes")
  let comments ← castOpt env "comments" (castArray (castComment env))
    (request.get? "comments")
  let authoredDate ← castOpt env "authoredDate" env.castDate (request.get? "authoredDate")
  let tags ← castOpt env "tags" (castArray castString) (request.get? "tags")
  return { _id, author, title, body, likes, comments, authoredDate, tags }

/-- Apply a cast update to the matched blog. -/
def BlogPatch.apply (p : BlogPatch) (b : Blog) : Blog :=
  { _id := b._id, author := p.author.getD b.author, title := p.title.getD b.title,
    body := p.body.getD b.body,
    likes := p.likes.getD b.likes,
    comments := p.comments.getD b.comments,
    authoredDate := p.authoredDate.getD b.authoredDate, tags := p.tags.getD b.tags }

/-- The call `Blogs.updateOne({ _id: blogId }, request)`. -/
def updateBlog (env : Env) (store : Store) (blogId : String) (request : Json) :
    Except String Store := do
  let id ← orCastError env "_id" (env.castObjectId (.str blogId))
  let patch ← castBlogUpdate env request
  match store.blogs.find? fun b => b._id == id with
  | none => return store
  | some b =>
    if patch._id.isSome && patch._id != some b._id then
      throw (env.describe .immutableId)
    else
      return { store with blogs := updateFirst (fun o => o._id == id) patch.apply store.blogs }

/-- The handler of `PUT /update/:id` (blog). -/
def blogUpdate (env : Env) (store : Store) (req : Request) : Response × Store :=
  let blogId := req.paramId
  let request := req.body
  match safeParse (blogUpdateSchema env) request with
  | error :: _ => (validationFailure error, store)
  | [] =>
    match updateBlog env store blogId request with
    | .ok store' =>
      (⟨200, [("message", .str "Blog updated successfully"), ("success", .bool true)]⟩,
       store')
    | .error message => (internalError "Internal server error" message, store)

/-- Evaluation of an identifier that no scope declares: a ReferenceError. -/
def unbound {α : Type} (name : String) : Except String α :=
  .error (name ++ " is not defined")

/-- The call `users.indexOf(userId)` on the array of a blog: `-1` when absent. -/
def indexOfUser (users : List String) (userId : Option Json) : Int :=
  match users.findIdx? fun u => looseEqString u userId with
  | some i => i
  | none => -1

/-- The `try` block of `PUT /like/:id`: whether the like was added, and the store after
`blog.save()`. The identifier `blogs` used on one line of each branch is not declared
anywhere in `routes/blog.js`. -/
def likeAttempt (env : Env) (store : Store) (userId : Option Json) (id : String) :
    Except String (Bool × Store) := do
  let _id ← orCastError env "_id" (env.castObjectId (.str id))
  let blog ← match store.blogs.find? fun b => b._id == _id with
    | some b => pure b
    | none => throw "Cannot read properties of null (reading 'likes')"
  let likedIndex := indexOfUser blog.likes.users userId
  let blog ←
    if likedIndex != -1 then do
      -- blog.likes.users.splice(likedIndex, 1)
      let blog := { blog with likes := ⟨blog.likes.count, blog.likes.users.eraseIdx likedIndex.toNat⟩ }
      -- blogs.likes.count--
      let _blogs : Blog ← unbound "blogs"
      pure blog
    else do
      -- blogs.likes.users.push(userId)
      let _blogs : Blog ← unbound "blogs"
      -- blog.likes.count++
      pure { blog with likes := ⟨blog.likes.count + 1, blog.likes.users⟩ }
  -- await blog.save()
  let store' := { store with blogs := updateFirst (fun o => o._id == blog._id) (fun _ => blog) store.blogs }
  return (likedIndex == -1, store')

/-- The handler of `PUT /like/:id`. -/
def blogLike (env : Env) (store : Store) (req : Request) : Response × Store :=
  match likeAttempt env store req.userId req.paramId with
  | .ok (liked, store') =>
    (⟨200, [("success", .bool true), ("message", .str "Like toggled successfully"),
            ("liked", .bool liked)]⟩, store')
  | .error message => (internalError "Internal Server Error" message, store)

/-- The call `Blogs.find` of the two list routes: an optional `author` clause, and the
`$or` of a `$regex` on the title and an `$elemMatch` `$regex` on the tags, each with
option `i`. -/
def findBlogs (env : Env) (store : Store) (author : Option (Option Json))
    (titlePattern tagPattern : String) : Except String (List Blog) := do
  let authorId ← match author with
    | none => pure none
    | some userId => (castOpt env "author" env.castObjectId userId).map some
  let titleTest ← compileRegex env titlePattern
  let tagTest ← compileRegex env tagPattern
  return store.blogs.filter fun b =>
    (match authorId with
      | none => true
      | some id => some b.author == id) &&
    (titleTest b.title || b.tags.any tagTest)

/-- The handler of `GET /` (the blogs of the caller). -/
def blogMine (env : Env) (store : Store) (req : Request) : Response × Store :=
  let userId := req.userId
  let filter := req.filter.getD ""
  match safeParse (blogFilterSchema env) (.str filter) with
  | error :: _ => (validationFailure error, store)
  | [] =>
    match findBlogs env store (some userId) filter filter with
    | .ok userBlogs =>
      (⟨200, [("blogs", .arr (userBlogs.map env.blogJson)),
              ("message", .str "fetched all the users' blogs successfully"),
              ("success", .bool true)]⟩, store)
    | .error message => (internalError "Internal Server Error" message, store)

/-- The handler of `GET /all`. The `$regex` of its `$elemMatch` on the tags is the
string literal `"filter"`, not the variable `filter`. -/
def blogAll (env : Env) (store : Store) (req : Request) : Response × Store :=
  let filter := req.filter.getD ""
  match safeParse (blogFilterSchema env) (.str filter) with
  | error :: _ => (validationFailure error, store)
  | [] =>
    match findBlogs env store none filter "filter" with
    | .ok allBlogs =>
      (⟨200, [("blogs", .arr (allBlogs.map env.blogJson)),
              ("message", .str "fetched all the blogs successfully"),
              ("success", .bool true)]⟩, store)
    | .error message => (internalError "Internal Server Error" message, store)

/-- The binding `blogCommentSchema` of `routes/blog.js`, destructured from
`require("./Schemas/blog")`: that module exports `blogCreateSchema`, `blogUpdateSchema`
and `blogFilterSchema` only, so the binding is `undefined`. -/
def blogCommentSchema : Option Schema := none

/-- The handler of `PUT /comment/:id`; `none` when it ends without sending a response.
The call `blogCommentSchema.safeParse(comment)` stands before the `try` block, so the
TypeError it throws on an `undefined` schema is not caught by the handler. With a
schema, the update document handed to `Blogs.updateOne` is
`{ comments: { "$push": { comments: { user, message } } } }`. -/
def blogComment (env : Env) (store : Store) (req : Request) : Option Response × Store :=
  let userId := req.userId
  let id := req.paramId
  let comment := req.body.get? "comment"
  match blogCommentSchema with
  | none => (none, store)
  | some schema =>
    match (schema [] comment).issues with
    | error :: _ => (some (validationFailure error), store)
    | [] =>
      match updateBlog env store id
          (.obj [("comments", .obj [("$push", .obj [("comments",
            .obj (jsonBody [("user", userId), ("message", comment)]))])])]) with
      | .ok store' =>
        (some ⟨200, [("success", .bool true), ("message", .str "Comment added successfully")]⟩,
         store')
      | .error message => (some (internalError "Internal Server Error" message), store)

/-! ## Routing (`routes/index.js`, `router.use(authMiddleware)`) -/

/-- The routes of the two routers. -/
inductive Route where
  | userSignup | userLogin | userUpdate | userDelete | userBulk | userDetails
  | blogCreate | blogUpdate | blogDelete | blogMine | blogAll | blogRecommended
  | blogLike | blogComment
  deriving DecidableEq, Repr

/-- Whether `authMiddleware` is mounted in front of the route: on the whole blog router
(`router.use(authMiddleware)` precedes every blog route) and on four user routes. -/
def Route.guarded : Route → Bool
  | .userSignup => false
  | .userLogin => false
  | _ => true

/-- What serving one request did: the tokens verified, the response of `authMiddleware` (if it
sent one) and the results of the invocations of the route handler. -/
structure Served (α : Type) where
  verified : List (Option String)
  authResponse : Option Response
  handled : List α

/-- Serve a request on a route: `authMiddleware` first when the route is guarded; the
handler runs when the route is not guarded or the middleware called `next()`. -/
def serve {α : Type} (env : Env) (route : Route) (handler : Request → α) (req : Request) :
    Served α :=
  if route.guarded then
    let auth := authMiddleware env req
    { verified := auth.verified, authResponse := auth.response,
      handled := (List.replicate auth.nextCalls ()).map fun _ =>
        handler { req with userId := auth.userId } }
  else
    { verified := [], authResponse := none, handled := [handler req] }

/-! ## A concrete environment and sample data -/

/-- Hexadecimal digits. -/
def isHexDigit (c : Char) : Bool :=
  c.isDigit || ('a' ≤ c && c ≤ 'f') || ('A' ≤ c && c ≤ 'F')

/-- Characters with a special meaning in a regular expression. -/
def isRegexMeta (c : Char) : Bool :=
  "\\^$.|?*+()[]\x7b\x7d".data.contains c

/-- Whether `pattern` occurs in `subject` as a contiguous run. -/
def containsRun (pattern : List Char) : List Char → Bool
  | [] => pattern.isEmpty
  | c :: cs => (dropLiteral pattern (c :: cs)).isSome || containsRun pattern cs

/-- A blog document as JSON, field by field (the date as epoch milliseconds). -/
def sampleBlogJson (b : Blog) : Json :=
  .obj [("likes", .obj [("count", .num b.likes.count),
                        ("users", .arr (b.likes.users.map Json.str))]),
        ("_id", .str b._id), ("author", .str b.author), ("title", .str b.title),
        ("body", .str b.body),
        ("comments", .arr (b.comments.map fun c =>
          .obj (jsonBody [("user", c.user.map Json.str), ("message", c.message.map Json.str)]))),
        ("authoredDate", .num b.authoredDate), ("tags", .arr (b.tags.map Json.str))]

/-- A concrete environment: four preferences, a token service that knows three tokens,
a transparent hasher, casts that accept values of the target type (24 hex digits for
an ObjectId), and regular expressions limited to literal patterns. -/
def sampleEnv : Env where
  PREFERENCES := ["tech", "music", "art", "sports"]
  verify := fun token =>
    match token with
    | some "good" => .ok (.obj [("userId", .str "0000000000000000000000a1"), ("iat", .num 1)])
    | some "other" => .ok (.obj [("userId", .str "0000000000000000000000a2"), ("iat", .num 1)])
    | some "anon" => .ok (.obj [("iat", .num 1)])
    | some "" => .error "jwt must be provided"
    | none => .error "jwt must be provided"
    | _ => .error "jwt malformed"
  sign := fun id => "signed:" ++ id
  createHash := fun plain => "$2b$10$" ++ plain
  compare := fun candidate stored => "$2b$10$" ++ candidate == stored
  isEmail := fun s => s.data.contains '@' && s.data.all fun c => !isJsSpace c
  toLowerCase := fun s => String.mk (s.data.map Char.toLower)
  castObjectId := fun v =>
    match v with
    | .str s => if s.length = 24 ∧ s.data.all isHexDigit then some s else none
    | _ => none
  castNumber := fun v =>
    match v with
    | .num n => some n
    | _ => none
  castDate := fun v =>
    match v with
    | .num n => some n
    | _ => none
  newId := fun ids =>
    match ids.length with
    | 0 => "0000000000000000000000f0"
    | 1 => "0000000000000000000000f1"
    | 2 => "0000000000000000000000f2"
    | _ => "0000000000000000000000f3"
  describe := fun e =>
    match e with
    | .cast path => "Cast failed for path " ++ path
    | .validation paths => "Validation failed: " ++ jsJoin ", " paths
    | .duplicateKey path => "E11000 duplicate key error: " ++ path
    | .immutableId => "Performing an update on the path '_id' would modify the immutable field '_id'"
    | .invalidRegex pattern => "Regular expression is invalid: " ++ pattern
  regexI := fun pattern =>
    if pattern.data.any isRegexMeta then none
    else some fun subject =>
      containsRun (pattern.data.map Char.toLower) (subject.data.map Char.toLower)
  blogJson := sampleBlogJson
  now := 1700000000000

/-- A signup payload. -/
def signupBody (username first last password email : String) (preferences : List String) :
    Json :=
  .obj [("username", .str username),
        ("name", .obj [("first", .str first), ("last", .str last)]),
        ("password", .str password), ("email", .str email),
        ("preferences", .arr (preferences.map Json.str))]

/-- A stored user. -/
def ada : User :=
  { _id := "0000000000000000000000a1", username := "ada", first := some "Ada",
    last := some "L",
    password := "$2b$10$secret1", email := "ada@x.com",
    preferences := ["tech", "music", "art"] }

/-- The stored usernames and emails are trimmed, as the setters of `userSchema` leave
them on every write. -/
def usersTrimmed (store : Store) : Prop :=
  ∀ u ∈ store.users, jsTrim u.username = u.username ∧ jsTrim u.email = u.email

/-- A stored blog by `ada`, not yet liked or commented. -/
def sampleBlog (id title : String) : Blog :=
  { _id := id, author := "0000000000000000000000a1", title := title, body := "text",
    likes := ⟨0, []⟩, comments := [], authoredDate := 1700000000000, tags := ["tech"] }

/-- A request that passed `authMiddleware` as `ada`. -/
def asAda (paramId : String) (body : Json) : Request :=
  { authorization := some "Bearer good", body := body, paramId := paramId,
    userId := some (.str "0000000000000000000000a1") }

/-- A user document with its password field blanked. -/
def withoutPassword (u : User) : User :=
  { u with password := "" }

/-- A user update payload. -/
def updateBody (username : String) (preferences : List String) : Json :=
  .obj [("username", .str username), ("preferences", .arr (preferences.map Json.str))]

/-! # Theorems -/

/-! ## Properties of the authentication middleware -/

theorem dropLiteral_eq_some (p s rest : List Char) :
    dropLiteral p s = some rest ↔ s = p ++ rest := by
  induction p generalizing s with
  | nil => simp [dropLiteral, eq_comm]
  | cons a p ih =>
    cases s with
    | nil => simp [dropLiteral]
    | cons c s =>
      by_cases h : a = c
      · subst h; simp [dropLiteral, ih]
      · have h' : ¬ c = a := fun e => h e.symm
        simp [dropLiteral, h, h']

/-- The shape test accepts exactly `Bearer ` followed by one or more characters none of
which is a line terminator. -/
theorem authSchemaMatches_iff (auth : String) :
    authSchemaMatches auth = true ↔
      ∃ rest : List Char, auth = String.mk ("Bearer ".data ++ rest) ∧ rest ≠ [] ∧
        ∀ c ∈ rest, isLineTerminator c = false := by
  unfold authSchemaMatches
  constructor
  · intro h
    split at h
    · rename_i rest hrest
      rw [dropLiteral_eq_some] at hrest
      refine ⟨rest, ?_, ?_, ?_⟩
      · rw [← hrest]
      · intro hnil; subst hnil; simp at h
      · intro c hc
        simp only [Bool.and_eq_true, List.all_eq_true] at h
        simpa using h.2 c hc
    · simp at h
  · rintro ⟨rest, rfl, hne, hall⟩
    have : dropLiteral "Bearer ".data ("Bearer ".data ++ rest) = some rest :=
      (dropLiteral_eq_some _ _ _).2 rfl
    simp only [this]
    cases rest with
    | nil => exact absurd rfl hne
    | cons c cs =>
      simp only [List.isEmpty_cons, Bool.not_false, Bool.true_and, List.all_eq_true]
      intro x hx
      simp [hall x hx]

theorem authSchemaMatches_ne_empty (auth : String) (h : authSchemaMatches auth = true) :
    auth ≠ "" := by
  rintro rfl
  revert h
  decide


/-- C1: for a header of the shape `Bearer <token>` the outcome of the middleware is
decided by the verification of the extracted token: a payload with a truthy `userId`
sends no response, stores that `userId` on the request and calls `next()` once; a
(non-null) payload without a truthy `userId` is answered 401 "Invalid Access token
supplied" without calling `next()`; a thrown error is answered 500 with its message
without calling `next()`. So `next()` is called exactly when verification gave an
identifier. -/
theorem authMiddleware_decided_by_verification (env : Env) (req : Request) (auth : String)
    (hauth : req.authorization = some auth) (hshape : authSchemaMatches auth = true) :
    (∀ decoded, env.verify (extractToken auth) = .ok decoded →
        truthy? (decoded.get? "userId") = true →
        authMiddleware env req =
          { verified := [extractToken auth], response := none,
            userId := decoded.get? "userId", nextCalls := 1 }) ∧
    (∀ decoded, env.verify (extractToken auth) = .ok decoded → decoded ≠ .null →
        truthy? (decoded.get? "userId") = false →
        authMiddleware env req =
          { verified := [extractToken auth], userId := none, nextCalls := 0,
            response := some ⟨401, [("error", .str "Unauthorized"),
              ("message", .str "Invalid Access token supplied"),
              ("success", .bool false)]⟩ }) ∧
    (∀ message, env.verify (extractToken auth) = .error message →
        authMiddleware env req =
          { verified := [extractToken auth], userId := none, nextCalls := 0,
            response := some ⟨500, [("error", .str "Internal server error"),
              ("message", .str message), ("success", .bool false)]⟩ }) ∧
    ((authMiddleware env req).nextCalls = 1 ↔
        ∃ decoded, env.verify (extractToken auth) = .ok decoded ∧
          truthy? (decoded.get? "userId") = true) := by
  have hne : auth ≠ "" := authSchemaMatches_ne_empty auth hshape
  refine ⟨?_, ?_, ?_, ?_⟩
  · intro decoded hv ht
    cases decoded <;> simp_all [authMiddleware, truthy?, Json.get?]
  · intro decoded hv hnn ht
    cases decoded <;> simp_all [authMiddleware, truthy?, Json.get?]
  · intro message hv
    simp [authMiddleware, hauth, hne, hshape, hv]
  · cases hv : env.verify (extractToken auth) with
    | error message => simp [authMiddleware, hauth, hne, hshape, hv]
    | ok decoded =>
      cases decoded <;>
        simp [authMiddleware, hauth, hne, hshape, hv, truthy?, Json.get?]
      rename_i fields
      cases h : truthy? (Json.lookup "userId" fields) <;> simp [truthy?] at h ⊢ <;> simp_all [truthy?]

theorem authMiddleware_decided_by_verification_witness :
    authSchemaMatches "Bearer good" = true ∧
    authMiddleware sampleEnv { authorization := some "Bearer good" } =
      { verified := [some "good"], response := none,
        userId := some (.str "0000000000000000000000a1"), nextCalls := 1 } :=
  ⟨by decide,
   (authMiddleware_decided_by_verification sampleEnv { authorization := some "Bearer good" }
      "Bearer good" rfl (by decide)).1 _ rfl rfl⟩


/-- C2: a request without an authorization header is answered 401 with error
"Unauthorized", message "Access Token is missing" and success false; no token is
verified and `next()` is not called; on every blog route and on the user routes
update, delete, bulk and details this is the response served and the route handler
does not run. -/
theorem authMiddleware_missing_header (env : Env) (req : Request)
    (hauth : req.authorization = none) :
    authMiddleware env req =
      { verified := [], response := some missingTokenResponse, userId := none,
        nextCalls := 0 } ∧
    missingTokenResponse.status = 401 ∧
    missingTokenResponse.field "error" = some (.str "Unauthorized") ∧
    missingTokenResponse.field "message" = some (.str "Access Token is missing") ∧
    missingTokenResponse.field "success" = some (.bool false) ∧
    ∀ route ∈ [Route.userUpdate, .userDelete, .userBulk, .userDetails, .blogCreate,
        .blogUpdate, .blogDelete, .blogMine, .blogAll, .blogRecommended, .blogLike,
        .blogComment],
      ∀ (α : Type) (handler : Request → α),
        serve env route handler req =
          { verified := [], authResponse := some missingTokenResponse, handled := [] } := by
  have h : authMiddleware env req =
      { verified := [], response := some missingTokenResponse, userId := none,
        nextCalls := 0 } := by
    simp [authMiddleware, hauth, missingTokenResponse]
  refine ⟨h, rfl, rfl, rfl, rfl, ?_⟩
  intro route hroute α handler
  have hg : route.guarded = true := by
    simp only [List.mem_cons, List.mem_singleton, List.not_mem_nil, or_false] at hroute
    rcases hroute with h | h | h | h | h | h | h | h | h | h | h | h <;> subst h <;> rfl
  simp [serve, hg, h]

theorem authMiddleware_missing_header_witness :
    ({ } : Request).authorization = none ∧
    serve sampleEnv Route.blogLike (blogLike sampleEnv ⟨[], []⟩) { } =
      { verified := [], authResponse := some missingTokenResponse, handled := [] } :=
  ⟨rfl, (authMiddleware_missing_header sampleEnv { } rfl).2.2.2.2.2 Route.blogLike
    (by simp) _ _⟩

/-- C3 as stated fails: an empty authorization header is present and is not of the
shape `Bearer <token>`, yet it is answered 401, not 400; the message of the 400 ends
in a full stop; and `Bearer a<LF>b`, the prefix followed by a non-empty remainder, is
answered 400. -/
theorem authMiddleware_bad_header_counterexample :
    (authMiddleware sampleEnv { authorization := some "" }).response =
      some missingTokenResponse ∧
    missingTokenResponse.status ≠ 400 ∧
    ((authMiddleware sampleEnv { authorization := some "Basic abc" }).response.bind
        fun r => r.field "message") = some (.str "Invalid authorization key.") ∧
    "Invalid authorization key." ≠ "Invalid authorization key" ∧
    ((authMiddleware sampleEnv { authorization := some "Bearer a\nb" }).response.map
        fun r => r.status) = some 400 := by
  refine ⟨rfl, by decide, rfl, by decide, rfl⟩

/-- C3, amended: a non-empty authorization header that is not `Bearer ` followed by one
or more characters, none a line terminator, is answered 400 with error "Bad request"
and message "Invalid authorization key."; no token is verified and `next()` is not
called. Conversely a header `Bearer ` followed by such a remainder is never answered
400. -/
theorem authMiddleware_bad_header (env : Env) (req : Request) (auth : String)
    (hauth : req.authorization = some auth) (hne : auth ≠ "") :
    ((¬ ∃ rest : List Char, auth = String.mk ("Bearer ".data ++ rest) ∧ rest ≠ [] ∧
          ∀ c ∈ rest, isLineTerminator c = false) →
      authMiddleware env req =
        { verified := [], userId := none, nextCalls := 0,
          response := some ⟨400, [("error", .str "Bad request"),
            ("message", .str "Invalid authorization key."), ("success", .bool false)]⟩ }) ∧
    ((∃ rest : List Char, auth = String.mk ("Bearer ".data ++ rest) ∧ rest ≠ [] ∧
          ∀ c ∈ rest, isLineTerminator c = false) →
      (authMiddleware env req).response.map (fun r => r.status) ≠ some 400) := by
  rw [← authSchemaMatches_iff]
  constructor
  · intro hshape
    simp only [Bool.not_eq_true] at hshape
    simp [authMiddleware, hauth, hne, hshape]
  · intro hshape
    cases hv : env.verify (extractToken auth) with
    | error message => simp [authMiddleware, hauth, hne, hshape, hv]
    | ok decoded =>
      cases decoded <;> simp [authMiddleware, hauth, hne, hshape, hv]
      all_goals split <;> simp

theorem authMiddleware_bad_header_witness :
    (¬ ∃ rest : List Char, "Basic abc" = String.mk ("Bearer ".data ++ rest) ∧ rest ≠ [] ∧
        ∀ c ∈ rest, isLineTerminator c = false) ∧
    authMiddleware sampleEnv { authorization := some "Basic abc" } =
      { verified := [], userId := none, nextCalls := 0,
        response := some ⟨400, [("error", .str "Bad request"),
          ("message", .str "Invalid authorization key."), ("success", .bool false)]⟩ } := by
  have hshape : ¬ ∃ rest : List Char, "Basic abc" = String.mk ("Bearer ".data ++ rest) ∧
      rest ≠ [] ∧ ∀ c ∈ rest, isLineTerminator c = false := by
    rw [← authSchemaMatches_iff]; decide
  exact ⟨hshape, (authMiddleware_bad_header sampleEnv { authorization := some "Basic abc" }
    "Basic abc" rfl (by decide)).1 hshape⟩

/-- C4 fails on the code: the header `Bearer a b` passes the shape test with remainder
`a b`, but the token handed to verification is `a`; for `Bearer  x` (remainder ` x`) it
is the empty string. -/
theorem authMiddleware_token_truncated_at_space :
    authSchemaMatches "Bearer a b" = true ∧
    (authMiddleware sampleEnv { authorization := some "Bearer a b" }).verified = [some "a"] ∧
    authSchemaMatches "Bearer  x" = true ∧
    (authMiddleware sampleEnv { authorization := some "Bearer  x" }).verified = [some ""] := by
  refine ⟨by decide, rfl, by decide, rfl⟩


theorem signup_valid_email (env : Env) (body : Json)
    (h : safeParse (userSignUpSchema env) body = []) :
    ∃ e, body.get? "email" = some (.str e) ∧ env.isEmail e = true := by
  cases body with
  | obj fields =>
    simp only [safeParse, userSignUpSchema, zObject, parseShape, List.append_eq_nil,
      List.nil_append] at h
    obtain ⟨-, -, -, hemail, -⟩ := h
    simp only [zString] at hemail
    cases hv : (Json.obj fields).get? "email" with
    | none => simp [hv] at hemail
    | some v =>
      cases v <;> simp [hv, runStringChecks] at hemail
      exact ⟨_, rfl, hemail⟩
  | _ => simp [safeParse, userSignUpSchema, zObject] at h


/-! ## Properties of the validation layer -/

/-- C5 as stated fails: a violation at `name.first` is reported with path
`first-name` (segments joined by a hyphen), not `first.name`. -/
theorem validation_path_counterexample :
    (signup sampleEnv ⟨[], []⟩
        { body := signupBody "ada" "" "L" "secret1" "ada@x.com" ["tech", "music", "art"] }
      ).1.field "path" = some (.str "first-name") ∧
    "first-name" ≠ "first.name" := by
  refine ⟨rfl, by decide⟩

theorem validationFailure_fields (error : Issue) :
    (validationFailure error).field "error" = some (.str "Bad Request") ∧
    (validationFailure error).field "message" = some (.str error.message) := by
  unfold validationFailure
  split <;> [skip; cases error.path[0]?] <;> simp [jsonBody, Response.field, Json.lookup]

/-- C5, amended: when the body fails the schema of signup, login, user update, blog
create or blog update, the handler answers 400 from the first issue alone and leaves
the store as it was: error "Bad Request", the message of that issue, and as `path` the
segments of its path in reverse order joined by hyphens (`name.first` gives
`first-name`) when there are two or more, the segment unchanged when there is one, and
no `path` at all when the path is empty. -/
theorem validation_failure_reports_first_issue (env : Env) (store : Store) (req : Request)
    (error : Issue) (rest : List Issue) :
    ((safeParse (userSignUpSchema env) req.body = error :: rest →
        signup env store req = (validationFailure error, store)) ∧
     (safeParse (userLoginSchema env) req.body = error :: rest →
        login env store req = (validationFailure error, store)) ∧
     (safeParse (userUpdateSchema env) req.body = error :: rest →
        userUpdate env store req = (validationFailure error, store)) ∧
     (safeParse (blogCreateSchema env) req.body = error :: rest →
        blogCreate env store req = (validationFailure error, store)) ∧
     (safeParse (blogUpdateSchema env) req.body = error :: rest →
        blogUpdate env store req = (validationFailure error, store))) ∧
    (validationFailure error).status = 400 ∧
    (validationFailure error).field "error" = some (.str "Bad Request") ∧
    (validationFailure error).field "message" = some (.str error.message) ∧
    (2 ≤ error.path.length →
      (validationFailure error).field "path" =
        some (.str (jsJoin "-" (error.path.reverse.map Seg.render)))) ∧
    (∀ seg, error.path = [seg] → (validationFailure error).field "path" = some seg.toJson) ∧
    (error.path = [] → (validationFailure error).field "path" = none) := by
  refine ⟨⟨?_, ?_, ?_, ?_, ?_⟩, rfl, (validationFailure_fields error).1,
    (validationFailure_fields error).2, ?_, ?_, ?_⟩
  · intro h; simp [signup, h]
  · intro h; simp [login, h]
  · intro h; simp [userUpdate, h]
  · intro h; simp [blogCreate, h]
  · intro h; simp [blogUpdate, h]
  · intro h
    have h' : error.path.length > 1 := h
    simp [validationFailure, h', jsonBody, Response.field, Json.lookup]
  · intro seg h
    simp [validationFailure, h, jsonBody, Response.field, Json.lookup]
  · intro h
    simp [validationFailure, h, jsonBody, Response.field, Json.lookup]

theorem validation_failure_reports_first_issue_witness :
    safeParse (userSignUpSchema sampleEnv)
        (signupBody "ada" "" "L" "secret1" "ada@x.com" ["tech", "music", "art"]) =
      [⟨[.key "name", .key "first"], "first-name cannot be empty"⟩] ∧
    signup sampleEnv ⟨[], []⟩
        { body := signupBody "ada" "" "L" "secret1" "ada@x.com" ["tech", "music", "art"] } =
      (validationFailure ⟨[.key "name", .key "first"], "first-name cannot be empty"⟩,
       ⟨[], []⟩) ∧
    (validationFailure ⟨[.key "name", .key "first"], "first-name cannot be empty"⟩).field
        "path" = some (.str "first-name") :=
  ⟨rfl,
   (validation_failure_reports_first_issue sampleEnv ⟨[], []⟩
      { body := signupBody "ada" "" "L" "secret1" "ada@x.com" ["tech", "music", "art"] }
      ⟨[.key "name", .key "first"], "first-name cannot be empty"⟩ []).1.1 rfl,
   rfl⟩


/-! ## Properties of the user routes -/

theorem trimStart_of_no_space (l : List Char) (h : ∀ c ∈ l, isJsSpace c = false) :
    trimStart l = l := by
  cases l with
  | nil => rfl
  | cons c cs => simp [trimStart, h c (List.mem_cons_self _ _)]

theorem jsTrim_of_no_space (s : String) (h : ∀ c ∈ s.data, isJsSpace c = false) :
    jsTrim s = s := by
  unfold jsTrim
  rw [trimStart_of_no_space _ h, trimStart_of_no_space _ (by simpa using h), List.reverse_reverse]

theorem matchesQuery_str (s stored : String) :
    matchesQuery (some (.str s)) stored = (jsTrim s == stored) := by
  simp [matchesQuery, castTrimmed, castString]

/-- C6: when a signup payload passes validation and its username or its email equals
that of a stored user, signup answers 409 and stores nothing, and the error names a
field that did collide: "This username is already taken" only if the submitted username
is that of a stored user, "This email address already exists" only if the submitted
email is that of a stored user. (Stored usernames and emails are trimmed, and the email
test of the schema accepts no surrounding white space.) -/
theorem signup_conflict_names_colliding_field (env : Env) (store : Store) (req : Request)
    (u : User)
    (hemail : ∀ s, env.isEmail s = true → jsTrim s = s)
    (hstore : usersTrimmed store)
    (hvalid : safeParse (userSignUpSchema env) req.body = [])
    (hu : u ∈ store.users)
    (hcollide : req.body.get? "username" = some (.str u.username) ∨
      req.body.get? "email" = some (.str u.email)) :
    (signup env store req).1.status = 409 ∧
    (signup env store req).2 = store ∧
    ((signup env store req).1.field "error" = some (.str "This username is already taken") ∨
     (signup env store req).1.field "error" =
        some (.str "This email address already exists")) ∧
    ((signup env store req).1.field "error" = some (.str "This username is already taken") →
      ∃ v ∈ store.users, req.body.get? "username" = some (.str v.username)) ∧
    ((signup env store req).1.field "error" =
        some (.str "This email address already exists") →
      ∃ v ∈ store.users, req.body.get? "email" = some (.str v.email)) := by
  obtain ⟨e, hget, hise⟩ := signup_valid_email env req.body hvalid
  have htrim := hstore u hu
  -- the stored user `u` satisfies the `$or` filter
  have hq : (matchesQuery (req.body.get? "username") u.username ||
      matchesQuery (req.body.get? "email") u.email) = true := by
    rcases hcollide with h | h
    · simp [h, matchesQuery_str, htrim.1]
    · simp [h, matchesQuery_str, htrim.2]
  cases hfind : store.users.find? (fun u =>
      matchesQuery (req.body.get? "username") u.username ||
      matchesQuery (req.body.get? "email") u.email) with
  | none =>
    have := List.find?_eq_none.1 hfind u hu
    simp [hq] at this
  | some existing =>
    have hmem : existing ∈ store.users := List.mem_of_find?_eq_some hfind
    have hqe := List.find?_some hfind
    have hsignup : signup env store req =
        (⟨409, [("error", .str (if looseEqString existing.username (req.body.get? "username")
                then "This username is already taken"
                else "This email address already exists")),
              ("message", .str "User already exists"), ("success", .bool false)]⟩, store) := by
      simp [signup, hvalid, hfind]
    rw [hsignup]
    cases hloose : looseEqString existing.username (req.body.get? "username") with
    | true =>
      refine ⟨rfl, rfl, Or.inl (by simp [Response.field, Json.lookup]), ?_, ?_⟩
      · intro _
        refine ⟨existing, hmem, ?_⟩
        cases hun : req.body.get? "username" with
        | none => simp [hun, looseEqString] at hloose
        | some v => cases v <;> simp_all [looseEqString]
      · intro h
        simp [Response.field, Json.lookup] at h
    | false =>
      refine ⟨rfl, rfl, Or.inr (by simp [Response.field, Json.lookup]), ?_, ?_⟩
      · intro h
        simp [Response.field, Json.lookup] at h
      · intro _
        rcases hcollide with h | h
        · -- the username of `u` was submitted, so `existing` matched through its email
          have hne : ¬ u.username = existing.username := by
            intro heq
            simp [h, looseEqString, heq] at hloose
          have hq2 : matchesQuery (some (.str e)) existing.email = true := by
            simp only [h, matchesQuery_str, htrim.1, hget, Bool.or_eq_true, beq_iff_eq] at hqe
            rcases hqe with h1 | h1
            · exact absurd h1 hne
            · simpa [matchesQuery_str] using h1
          rw [matchesQuery_str, hemail e hise] at hq2
          exact ⟨existing, hmem, by rw [hget]; simp at hq2; rw [hq2]⟩
        · exact ⟨u, hu, h⟩

theorem signup_conflict_names_colliding_field_witness :
    usersTrimmed ⟨[ada], []⟩ ∧
    safeParse (userSignUpSchema sampleEnv)
      (signupBody "ada" "Augusta" "K" "secret2" "other@x.com" ["tech", "music", "art"]) = [] ∧
    (signup sampleEnv ⟨[ada], []⟩
      { body := signupBody "ada" "Augusta" "K" "secret2" "other@x.com"
          ["tech", "music", "art"] }).1.status = 409 := by
  have hstore : usersTrimmed ⟨[ada], []⟩ := by
    intro v hv
    simp only [List.mem_singleton] at hv
    subst hv
    exact ⟨rfl, rfl⟩
  have hemail : ∀ s, sampleEnv.isEmail s = true → jsTrim s = s := by
    intro s hs
    apply jsTrim_of_no_space
    simp only [sampleEnv, Bool.and_eq_true, List.all_eq_true] at hs
    intro c hc
    simpa using hs.2 c hc
  exact ⟨hstore, rfl,
    (signup_conflict_names_colliding_field sampleEnv ⟨[ada], []⟩
      { body := signupBody "ada" "Augusta" "K" "secret2" "other@x.com"
          ["tech", "music", "art"] } ada hemail hstore rfl (by simp)
      (Or.inl rfl)).1⟩


/-! ## Properties of the blog routes -/

/-- The like handler never succeeds: each branch of its `try` block evaluates the
undeclared identifier `blogs` before `blog.save()`, so every request is answered 500
and the store is left as it was. -/
theorem blogLike_never_succeeds (env : Env) (store : Store) (req : Request) :
    (blogLike env store req).1.status = 500 ∧ (blogLike env store req).2 = store := by
  have h : ∃ message, likeAttempt env store req.userId req.paramId = .error message := by
    unfold likeAttempt
    cases env.castObjectId (.str req.paramId) with
    | none => exact ⟨_, rfl⟩
    | some _id =>
      cases hfind : store.blogs.find? (fun b => b._id == _id) with
      | none => simp [orCastError, hfind, bind, Except.bind, throw, throwThe, MonadExceptOf.throw]
      | some blog =>
        by_cases hl : indexOfUser blog.likes.users req.userId != -1 <;>
          simp [orCastError, hfind, hl, unbound, bind, Except.bind, pure, Except.pure]
  obtain ⟨message, hm⟩ := h
  simp [blogLike, hm, internalError]

/-- C7 fails on the code: on a blog with empty `likes.users` the like request of a user
is answered 500 "blogs is not defined" and nothing is stored, where the claim has 200
with `liked: true` and a count of 1. -/
theorem blogLike_first_like_fails :
    blogLike sampleEnv ⟨[ada], [sampleBlog "0000000000000000000000b1" "First"]⟩
        (asAda "0000000000000000000000b1" (.obj [])) =
      (internalError "Internal Server Error" "blogs is not defined",
       ⟨[ada], [sampleBlog "0000000000000000000000b1" "First"]⟩) ∧
    (internalError "Internal Server Error" "blogs is not defined").status = 500 :=
  ⟨rfl, rfl⟩

/-- C8 fails on the code: a create request whose body passes `blogCreateSchema` and
also carries `likes: { count: 5, users: [] }` is answered 200 and stores a blog with
`likes.count` 5 and no liking user. -/
theorem blogCreate_stores_submitted_likes :
    safeParse (blogCreateSchema sampleEnv)
      (.obj [("title", .str "Hello"), ("body", .str "text"), ("tags", .arr [.str "tech"]),
             ("likes", .obj [("count", .num 5), ("users", .arr [])])]) = [] ∧
    (blogCreate sampleEnv ⟨[ada], []⟩ (asAda ""
      (.obj [("title", .str "Hello"), ("body", .str "text"), ("tags", .arr [.str "tech"]),
             ("likes", .obj [("count", .num 5), ("users", .arr [])])]))).1.status = 200 ∧
    (blogCreate sampleEnv ⟨[ada], []⟩ (asAda ""
      (.obj [("title", .str "Hello"), ("body", .str "text"), ("tags", .arr [.str "tech"]),
             ("likes", .obj [("count", .num 5), ("users", .arr [])])]))).2.blogs.map
        (fun b => (b.likes.count, b.likes.users.length)) = [(5, 0)] :=
  ⟨rfl, rfl, rfl⟩

/-- C9 fails on the code: an update request whose body passes `blogUpdateSchema` and
also carries `author` and `likes` is answered 200 and rewrites the author reference and
the like count of the blog. -/
theorem blogUpdate_rewrites_author_and_likes :
    safeParse (blogUpdateSchema sampleEnv)
      (.obj [("title", .str "Renamed"), ("author", .str "0000000000000000000000a2"),
             ("likes", .obj [("count", .num 7)])]) = [] ∧
    (blogUpdate sampleEnv ⟨[ada], [sampleBlog "0000000000000000000000b1" "First"]⟩
      (asAda "0000000000000000000000b1"
        (.obj [("title", .str "Renamed"), ("author", .str "0000000000000000000000a2"),
               ("likes", .obj [("count", .num 7)])]))).1.status = 200 ∧
    (blogUpdate sampleEnv ⟨[ada], [sampleBlog "0000000000000000000000b1" "First"]⟩
      (asAda "0000000000000000000000b1"
        (.obj [("title", .str "Renamed"), ("author", .str "0000000000000000000000a2"),
               ("likes", .obj [("count", .num 7)])]))).2.blogs.map
        (fun b => (b.author, b.likes.count, b.likes.users)) =
      [("0000000000000000000000a2", 7, [])] ∧
    (sampleBlog "0000000000000000000000b1" "First").author = "0000000000000000000000a1" ∧
    (sampleBlog "0000000000000000000000b1" "First").likes.count = 0 :=
  ⟨rfl, rfl, rfl, rfl, rfl⟩

/-- C10 fails on the code: in a store whose two blogs have different titles, an update
of the second blog to the title of the first is answered 200 and leaves two blogs with
the same title. -/
theorem blogUpdate_duplicates_title :
    (blogUpdate sampleEnv
      ⟨[ada], [sampleBlog "0000000000000000000000b1" "First",
               sampleBlog "0000000000000000000000b2" "Second"]⟩
      (asAda "0000000000000000000000b2" (.obj [("title", .str "First")]))).1.status = 200 ∧
    (blogUpdate sampleEnv
      ⟨[ada], [sampleBlog "0000000000000000000000b1" "First",
               sampleBlog "0000000000000000000000b2" "Second"]⟩
      (asAda "0000000000000000000000b2" (.obj [("title", .str "First")]))).2.blogs.map
        (fun b => (b._id, b.title)) =
      [("0000000000000000000000b1", "First"), ("0000000000000000000000b2", "First")] :=
  ⟨rfl, rfl⟩


theorem newBlog_eq_draft (env : Env) (store : Store) (request : Json) (userId : Option Json)
    (doc : Blog) (h : newBlog env store request userId = .ok doc) :
    doc = (blogDraft env store request userId).1 := by
  unfold newBlog at h
  dsimp only at h
  split at h
  · cases h
  · split at h
    · cases h
    · injection h with h
      exact h.symm


theorem blogCreate_valid_title (env : Env) (body : Json)
    (h : safeParse (blogCreateSchema env) body = []) :
    ∃ s, body.get? "title" = some (.str s) := by
  cases body with
  | obj fields =>
    simp only [safeParse, blogCreateSchema, zObject, parseShape, List.append_eq_nil,
      List.nil_append] at h
    obtain ⟨htitle, -⟩ := h
    simp only [zString] at htitle
    cases hv : (Json.obj fields).get? "title" with
    | none => simp [hv] at htitle
    | some v =>
      cases v <;> simp [hv] at htitle
      exact ⟨_, rfl⟩
  | _ => simp [safeParse, blogCreateSchema, zObject] at h

/-- The duplicate-title guard of create is exact: a valid create request whose title,
as it would be stored (trimmed), is the title of a stored blog is answered 409 and
nothing is stored. -/
theorem blogCreate_rejects_stored_title (env : Env) (store : Store) (req : Request)
    (s : String) (b : Blog)
    (hvalid : safeParse (blogCreateSchema env) req.body = [])
    (htitle : req.body.get? "title" = some (.str s))
    (hb : b ∈ store.blogs) (hsame : b.title = jsTrim s) :
    blogCreate env store req =
      (⟨409, [("error", .str "Conflict"), ("message", .str "Blog with same title exits"),
              ("success", .bool false)]⟩, store) := by
  cases hfind : store.blogs.find? (fun b => matchesQuery (req.body.get? "title") b.title) with
  | none =>
    have := List.find?_eq_none.1 hfind b hb
    simp [htitle, matchesQuery_str, hsame] at this
  | some existing => simp [blogCreate, hvalid, hfind]

/-- A create request that is accepted appends one blog whose title is the trimmed
submitted title, and no stored blog has that title: create keeps titles distinct. -/
theorem blogCreate_keeps_titles_distinct (env : Env) (store : Store) (req : Request)
    (hvalid : safeParse (blogCreateSchema env) req.body = [])
    (hok : (blogCreate env store req).1.status = 200)
    (hdistinct : (store.blogs.map (·.title)).Nodup) :
    ((blogCreate env store req).2.blogs.map (·.title)).Nodup := by
  obtain ⟨s, htitle⟩ := blogCreate_valid_title env req.body hvalid
  cases hfind : store.blogs.find? (fun b => matchesQuery (req.body.get? "title") b.title) with
  | some existing => simp [blogCreate, hvalid, hfind] at hok
  | none =>
    have hnone := List.find?_eq_none.1 hfind
    cases hnew : newBlog env store req.body req.userId with
    | error message => simp [blogCreate, hvalid, hfind, hnew, internalError] at hok
    | ok doc =>
      have hdoc : doc.title = jsTrim s := by
        rw [newBlog_eq_draft env store req.body req.userId doc hnew]
        simp [blogDraft, htitle, newString, castTrimmed, castString]
      have hblogs : (blogCreate env store req).2.blogs = store.blogs ++ [doc] := by
        simp [blogCreate, hvalid, hfind, hnew]
      rw [hblogs, List.map_append, List.nodup_append]
      refine ⟨hdistinct, by simp, ?_⟩
      intro t ht ht'
      simp only [List.map_cons, List.map_nil, List.mem_singleton] at ht'
      simp only [List.mem_map] at ht
      obtain ⟨b, hb, rfl⟩ := ht
      have := hnone b hb
      simp [htitle, matchesQuery_str, hdoc ▸ ht'] at this


/-! ## The stored strings are trimmed -/

theorem trimStart_suffix (l : List Char) : ∃ ws, l = ws ++ trimStart l := by
  induction l with
  | nil => exact ⟨[], rfl⟩
  | cons c cs ih =>
    by_cases h : isJsSpace c = true
    · obtain ⟨ws, hws⟩ := ih
      refine ⟨c :: ws, ?_⟩
      simp only [trimStart, h, if_true, List.cons_append]
      rw [← hws]
    · exact ⟨[], by simp [trimStart, h]⟩

theorem trimStart_head (l : List Char) : ∀ c ∈ (trimStart l).head?, isJsSpace c = false := by
  induction l with
  | nil => simp [trimStart]
  | cons c cs ih =>
    by_cases h : isJsSpace c = true
    · simpa [trimStart, h] using ih
    · simp [trimStart, h]

theorem trimStart_of_head (l : List Char) (h : ∀ c ∈ l.head?, isJsSpace c = false) :
    trimStart l = l := by
  cases l with
  | nil => rfl
  | cons c cs => simp [trimStart, h c (by simp)]

theorem jsTrim_idempotent (s : String) : jsTrim (jsTrim s) = jsTrim s := by
  unfold jsTrim
  simp only
  set a := trimStart s.data with ha
  set b := trimStart a.reverse with hb
  have hbhead := trimStart_head a.reverse
  rw [← hb] at hbhead
  have hahead := trimStart_head s.data
  rw [← ha] at hahead
  have hr : trimStart b.reverse = b.reverse := by
    apply trimStart_of_head
    obtain ⟨ws, hws⟩ := trimStart_suffix a.reverse
    rw [← hb] at hws
    have ha' : a = b.reverse ++ ws.reverse := by
      have := congrArg List.reverse hws
      simpa using this
    intro c hc
    apply hahead c
    rw [ha']
    cases hbr : b.reverse with
    | nil => simp [hbr] at hc
    | cons x xs => simpa [hbr] using hc
  rw [hr, List.reverse_reverse, trimStart_of_head b hbhead]

theorem castTrimmed_trimmed (v : Json) (t : String) (h : castTrimmed v = some t) :
    jsTrim t = t := by
  simp only [castTrimmed, Option.map_eq_some'] at h
  obtain ⟨s, -, rfl⟩ := h
  exact jsTrim_idempotent s

theorem newString_trimmed (v : Option Json) (t : String) (h : newString v = some t) :
    jsTrim t = t := by
  cases v with
  | none => simp only [newString, Option.some.injEq] at h; subst h; rfl
  | some x => exact castTrimmed_trimmed x t h


theorem getD_newString_trimmed (v : Option Json) :
    jsTrim ((newString v).getD "") = (newString v).getD "" := by
  cases h : newString v with
  | none => rfl
  | some t => exact newString_trimmed v t h

theorem newUser_eq_draft (env : Env) (store : Store) (request : Json) (doc : User)
    (h : newUser env store request = .ok doc) :
    ∃ password, doc = (userDraft env store request password).1 := by
  unfold newUser at h
  split at h
  · rename_i plain _
    refine ⟨env.createHash plain, ?_⟩
    dsimp only at h
    split at h
    · cases h
    · split at h
      · cases h
      · split at h
        · cases h
        · split at h
          · cases h
          · injection h with h
            exact h.symm
  · cases h

/-- Signup keeps the stored usernames and emails trimmed. -/
theorem signup_keeps_usersTrimmed (env : Env) (store : Store) (req : Request)
    (h : usersTrimmed store) : usersTrimmed (signup env store req).2 := by
  unfold signup
  dsimp only
  split
  · exact h
  · split
    · exact h
    · split
      · rename_i createdUser hnew
        obtain ⟨password, rfl⟩ := newUser_eq_draft env store req.body createdUser hnew
        intro u hu
        simp only [List.mem_append, List.mem_singleton] at hu
        rcases hu with hu | rfl
        · exact h u hu
        · exact ⟨getD_newString_trimmed _, getD_newString_trimmed _⟩
      · exact h

theorem mem_updateFirst {α : Type} (p : α → Bool) (f : α → α) (l : List α) (x : α)
    (hx : x ∈ updateFirst p f l) : x ∈ l ∨ ∃ y ∈ l, x = f y := by
  induction l with
  | nil => simp [updateFirst] at hx
  | cons a l ih =>
    unfold updateFirst at hx
    split at hx
    · simp only [List.mem_cons] at hx
      rcases hx with rfl | hx
      · exact Or.inr ⟨a, by simp, rfl⟩
      · exact Or.inl (by simp [hx])
    · simp only [List.mem_cons] at hx
      rcases hx with rfl | hx
      · exact Or.inl (by simp)
      · rcases ih hx with h | ⟨y, hy, rfl⟩
        · exact Or.inl (by simp [h])
        · exact Or.inr ⟨y, by simp [hy], rfl⟩

theorem castOpt_trimmed (env : Env) (path : String) (v : Option Json) (r : Option String)
    (h : castOpt env path castTrimmed v = .ok r) : ∀ t ∈ r, jsTrim t = t := by
  cases v with
  | none => simp only [castOpt, Except.ok.injEq] at h; subst h; simp
  | some x =>
    simp only [castOpt] at h
    cases hc : castTrimmed x with
    | none => simp [hc, orCastError, Except.map] at h
    | some t =>
      simp only [hc, orCastError, Except.map, Except.ok.injEq] at h
      subst h
      intro t' ht'
      simp only [Option.mem_def, Option.some.injEq] at ht'
      subst ht'
      exact castTrimmed_trimmed x t hc

theorem except_bind_eq_ok {ε α β : Type} (x : Except ε α) (f : α → Except ε β) (b : β) :
    (x >>= f) = .ok b ↔ ∃ a, x = .ok a ∧ f a = .ok b := by
  cases x with
  | error e => simp [bind, Except.bind]
  | ok a => simp [bind, Except.bind]

theorem castUserUpdate_trimmed (env : Env) (request : Json) (patch : UserPatch)
    (h : castUserUpdate env request = .ok patch) :
    (∀ t ∈ patch.username, jsTrim t = t) ∧ (∀ t ∈ patch.email, jsTrim t = t) := by
  unfold castUserUpdate at h
  simp only [except_bind_eq_ok] at h
  obtain ⟨_id, -, username, hu, name, -, password, -, email, he, preferences, -, h⟩ := h
  simp only [pure, Except.pure, Except.ok.injEq] at h
  subst h
  exact ⟨castOpt_trimmed env _ _ _ hu, castOpt_trimmed env _ _ _ he⟩

/-- The user update keeps the stored usernames and emails trimmed. -/
theorem userUpdate_keeps_usersTrimmed (env : Env) (store : Store) (req : Request)
    (h : usersTrimmed store) : usersTrimmed (userUpdate env store req).2 := by
  unfold userUpdate
  dsimp only
  split
  · exact h
  · split
    · rename_i store' hupd
      unfold updateUser at hupd
      simp only [bind, Except.bind, pure, Except.pure] at hupd
      split at hupd
      · cases hupd
      · split at hupd
        · cases hupd
        · rename_i patch hpatch
          obtain ⟨hpu, hpe⟩ := castUserUpdate_trimmed env req.body patch hpatch
          split at hupd
          · cases hupd; exact h
          · split at hupd
            · cases hupd
            · split at hupd
              · cases hupd
              · split at hupd
                · cases hupd
                · cases hupd
                  intro u hu
                  rcases mem_updateFirst _ _ _ u hu with hu | ⟨y, hy, rfl⟩
                  · exact h u hu
                  · have hy' := h y hy
                    constructor
                    · cases hpn : patch.username with
                      | none => simpa [UserPatch.apply, hpn] using hy'.1
                      | some t => simpa [UserPatch.apply, hpn] using hpu t (by simp [hpn])
                    · cases hpn : patch.email with
                      | none => simpa [UserPatch.apply, hpn] using hy'.2
                      | some t => simpa [UserPatch.apply, hpn] using hpe t (by simp [hpn])
    · exact h


theorem splitOnSpace_of_no_space (l : List Char) (h : ∀ c ∈ l, c ≠ ' ') :
    splitOnSpace l = [l] := by
  induction l with
  | nil => rfl
  | cons c cs ih =>
    have hc : c ≠ ' ' := h c (by simp)
    have hcs := ih fun x hx => h x (by simp [hx])
    simp [splitOnSpace, hc, hcs]

/-- Where the extracted token and the remainder agree: a remainder without a space is
handed to verification whole. -/
theorem extractToken_of_no_space (rest : List Char) (h : ∀ c ∈ rest, c ≠ ' ') :
    extractToken (String.mk ("Bearer ".data ++ rest)) = some (String.mk rest) := by
  have hsplit : splitOnSpace ('B' :: 'e' :: 'a' :: 'r' :: 'e' :: 'r' :: ' ' :: rest) =
      [['B', 'e', 'a', 'r', 'e', 'r'], rest] := by
    simp [splitOnSpace, splitOnSpace_of_no_space rest h]
  show (List.map String.mk
    (splitOnSpace ('B' :: 'e' :: 'a' :: 'r' :: 'e' :: 'r' :: ' ' :: rest)))[1]? = _
  rw [hsplit]
  rfl


/-! ## Properties of the comment and list routes -/

/-- The comment handler never answers and never writes: its schema binding is
`undefined`, and the call on it throws before the `try` block. -/
theorem blogComment_never_responds (env : Env) (store : Store) (req : Request) :
    blogComment env store req = (none, store) := rfl

/-- C11 fails on the code: a comment request on an existing blog with no comments is
not answered 200 and appends nothing; the handler ends without a response and the
comment sequence of the blog stays empty. -/
theorem blogComment_appends_nothing :
    blogComment sampleEnv ⟨[ada], [sampleBlog "0000000000000000000000b1" "First"]⟩
        (asAda "0000000000000000000000b1" (.obj [("comment", .str "Nice post")])) =
      (none, ⟨[ada], [sampleBlog "0000000000000000000000b1" "First"]⟩) ∧
    (sampleBlog "0000000000000000000000b1" "First").comments = [] :=
  ⟨rfl, rfl⟩

/-- What `GET /all` returns for a valid filter: the blogs whose title matches the
filter, or one of whose tags matches the fixed pattern `filter`. -/
theorem blogAll_response (env : Env) (store : Store) (req : Request)
    (titleTest tagTest : String → Bool)
    (hvalid : safeParse (blogFilterSchema env) (.str (req.filter.getD "")) = [])
    (htitle : env.regexI (req.filter.getD "") = some titleTest)
    (htag : env.regexI "filter" = some tagTest) :
    blogAll env store req =
      (⟨200, [("blogs", .arr ((store.blogs.filter fun b =>
                  titleTest b.title || b.tags.any tagTest).map env.blogJson)),
              ("message", .str "fetched all the blogs successfully"),
              ("success", .bool true)]⟩, store) := by
  simp [blogAll, hvalid, findBlogs, compileRegex, htitle, htag, bind, Except.bind, pure,
    Except.pure]

/-- What `GET /` returns for a valid filter and a caller whose identifier casts to `id`:
the blogs of that author whose title or one of whose tags matches the filter. -/
theorem blogMine_response (env : Env) (store : Store) (req : Request) (userId : Json)
    (id : String) (test : String → Bool)
    (hvalid : safeParse (blogFilterSchema env) (.str (req.filter.getD "")) = [])
    (huser : req.userId = some userId) (hid : env.castObjectId userId = some id)
    (htest : env.regexI (req.filter.getD "") = some test) :
    blogMine env store req =
      (⟨200, [("blogs", .arr ((store.blogs.filter fun b =>
                  b.author == id && (test b.title || b.tags.any test)).map env.blogJson)),
              ("message", .str "fetched all the users' blogs successfully"),
              ("success", .bool true)]⟩, store) := by
  simp [blogMine, hvalid, findBlogs, compileRegex, htest, huser, hid, castOpt, orCastError,
    Except.map, bind, Except.bind, pure, Except.pure]

/-- C12 fails on the code: with the filter `tech`, a blog titled `Hello` and tagged
`tech` is returned by `GET /` to its author but not by `GET /all`, although its tag
matches the filter. -/
theorem blogAll_ignores_filter_on_tags :
    (sampleEnv.regexI "tech").map (fun test => test "tech") = some true ∧
    (blogAll sampleEnv ⟨[ada], [sampleBlog "0000000000000000000000b1" "Hello"]⟩
        { asAda "" (.obj []) with filter := some "tech" }).1 =
      ⟨200, [("blogs", .arr []), ("message", .str "fetched all the blogs successfully"),
             ("success", .bool true)]⟩ ∧
    (blogMine sampleEnv ⟨[ada], [sampleBlog "0000000000000000000000b1" "Hello"]⟩
        { asAda "" (.obj []) with filter := some "tech" }).1 =
      ⟨200, [("blogs", .arr [sampleEnv.blogJson (sampleBlog "0000000000000000000000b1" "Hello")]),
             ("message", .str "fetched all the users' blogs successfully"),
             ("success", .bool true)]⟩ :=
  ⟨rfl, rfl, rfl⟩


/-! ## Read responses of the user routes -/

theorem userBulk_without_passwords (env : Env) (store : Store) (req : Request) :
    (userBulk env store req).1 =
      (userBulk env ⟨store.users.map withoutPassword, []⟩ req).1 := by
  unfold userBulk
  dsimp only
  split
  · rfl
  · split
    · rw [List.filter_map, List.map_map]
      rfl
    · rfl

theorem userDetails_without_passwords (env : Env) (store : Store) (req : Request) :
    (userDetails env store req).1 =
      (userDetails env ⟨store.users.map withoutPassword, []⟩ req).1 := by
  unfold userDetails findUserById
  dsimp only
  cases castOpt env "_id" env.castObjectId req.userId with
  | error message => rfl
  | ok id =>
    have hp : ((fun u : User => some u._id == id) ∘ withoutPassword) =
        fun u => some u._id == id := rfl
    simp only [bind, Except.bind, List.find?_map, hp]
    cases store.users.find? (fun u => some u._id == id) <;> rfl


/-- C13 as stated fails: after a user update whose body names only `name.first`
(answered 200), the stored user has no `name.last`, and the entry of that user in the
`GET /bulk` response and the `user` object of the `GET /details` response hold a `name`
with `first` alone. -/
theorem reads_omit_absent_name_member :
    (userUpdate sampleEnv ⟨[ada], []⟩ (asAda ""
      (.obj [("name", .obj [("first", .str "Augusta")]),
             ("preferences", .arr [.str "tech", .str "music", .str "art"])]))).1.status
      = 200 ∧
    (userBulk sampleEnv
      (userUpdate sampleEnv ⟨[ada], []⟩ (asAda ""
        (.obj [("name", .obj [("first", .str "Augusta")]),
               ("preferences", .arr [.str "tech", .str "music", .str "art"])]))).2
      (asAda "" (.obj []))).1.field "users" =
      some (.arr [.obj [("username", .str "ada"),
                        ("name", .obj [("first", .str "Augusta")]),
                        ("email", .str "ada@x.com"),
                        ("_id", .str "0000000000000000000000a1")]]) ∧
    (userDetails sampleEnv
      (userUpdate sampleEnv ⟨[ada], []⟩ (asAda ""
        (.obj [("name", .obj [("first", .str "Augusta")]),
               ("preferences", .arr [.str "tech", .str "music", .str "art"])]))).2
      (asAda "" (.obj []))).1.field "user" =
      some (.obj [("username", .str "ada"),
                  ("name", .obj [("first", .str "Augusta")]),
                  ("email", .str "ada@x.com"),
                  ("preferences", .arr [.str "tech", .str "music", .str "art"])]) :=
  ⟨rfl, rfl, rfl⟩

/-- The entry of a user who has both names holds exactly `username`, `name.first`,
`name.last`, `email` and `_id`. -/
theorem bulkEntry_of_full_name (u : User) (f l : String) (hf : u.first = some f)
    (hl : u.last = some l) :
    bulkEntry u =
      .obj [("username", .str u.username),
            ("name", .obj [("first", .str f), ("last", .str l)]),
            ("email", .str u.email), ("_id", .str u._id)] := by
  simp [bulkEntry, hf, hl, jsonBody]

/-- The `user` object of a user who has both names holds exactly `username`,
`name.first`, `name.last`, `email` and `preferences`. -/
theorem detailsEntry_of_full_name (u : User) (f l : String) (hf : u.first = some f)
    (hl : u.last = some l) :
    detailsEntry u =
      .obj [("username", .str u.username),
            ("name", .obj [("first", .str f), ("last", .str l)]),
            ("email", .str u.email),
            ("preferences", .arr (u.preferences.map Json.str))] := by
  simp [detailsEntry, hf, hl, jsonBody]

/-- C13, amended: the responses of `GET /bulk` and `GET /details` do not depend on the
stored passwords: two stores whose users agree in every field but the password give
the same response to every request. Each entry of a `GET /bulk` response is built from
a stored user and holds exactly `username`, `name`, `email` and `_id`; the `user`
object of a `GET /details` response holds exactly `username`, `name`, `email` and
`preferences`; in both, `name` holds `first` and `last` for each of the two that the
stored user has, and nothing else. -/
theorem reads_hide_passwords (env : Env) (store store' : Store) (req : Request)
    (hsame : store.users.map withoutPassword = store'.users.map withoutPassword) :
    (userBulk env store req).1 = (userBulk env store' req).1 ∧
    (userDetails env store req).1 = (userDetails env store' req).1 ∧
    ((userBulk env store req).1.status = 200 →
      ∃ users : List User, users.Sublist store.users ∧
        (userBulk env store req).1.body =
          [("users", .arr (users.map fun u =>
              .obj [("username", .str u.username),
                    ("name", .obj (jsonBody [("first", u.first.map Json.str),
                                             ("last", u.last.map Json.str)])),
                    ("email", .str u.email), ("_id", .str u._id)])),
           ("success", .bool true), ("message", .str "Users fetched successfully.")]) ∧
    ((userDetails env store req).1.status = 200 →
      ∃ u ∈ store.users,
        (userDetails env store req).1.body =
          [("user", .obj [("username", .str u.username),
              ("name", .obj (jsonBody [("first", u.first.map Json.str),
                                       ("last", u.last.map Json.str)])),
              ("email", .str u.email),
              ("preferences", .arr (u.preferences.map Json.str))]),
           ("message", .str "Users details fetched successfully"),
           ("success", .bool true)]) := by
  refine ⟨?_, ?_, ?_, ?_⟩
  · rw [userBulk_without_passwords env store, userBulk_without_passwords env store', hsame]
  · rw [userDetails_without_passwords env store, userDetails_without_passwords env store',
      hsame]
  · intro hok
    cases hvalid : safeParse (userFilterSchema env) (.str (req.filter.getD "")) with
    | cons error rest => simp [userBulk, hvalid, validationFailure] at hok
    | nil =>
      cases htest : compileRegex env (req.filter.getD "") with
      | error message => simp [userBulk, hvalid, htest, internalError] at hok
      | ok test =>
        refine ⟨store.users.filter fun u =>
          test u.username || u.first.any test || u.last.any test,
          List.filter_sublist _, ?_⟩
        simp only [userBulk, hvalid, htest]
        rfl
  · intro hok
    cases huser : findUserById env store req.userId with
    | error message => simp [userDetails, huser, internalError] at hok
    | ok user =>
      refine ⟨user, ?_, ?_⟩
      · unfold findUserById at huser
        cases hid : castOpt env "_id" env.castObjectId req.userId with
        | error message => simp [hid, bind, Except.bind] at huser
        | ok id =>
          simp only [hid, bind, Except.bind] at huser
          cases hfind : store.users.find? (fun u => some u._id == id) with
          | none => simp [hfind, throw, throwThe, MonadExceptOf.throw] at huser
          | some found =>
            simp only [hfind, pure, Except.pure, Except.ok.injEq] at huser
            subst huser
            exact List.mem_of_find?_eq_some hfind
      · simp only [userDetails, huser]
        rfl

theorem reads_hide_passwords_witness :
    [ada].map withoutPassword = [{ ada with password := "$2b$10$changed" }].map withoutPassword ∧
    (userDetails sampleEnv ⟨[ada], []⟩ (asAda "" (.obj []))).1 =
      (userDetails sampleEnv ⟨[{ ada with password := "$2b$10$changed" }], []⟩
        (asAda "" (.obj []))).1 ∧
    (userDetails sampleEnv ⟨[ada], []⟩ (asAda "" (.obj []))).1.status = 200 :=
  ⟨rfl,
   (reads_hide_passwords sampleEnv ⟨[ada], []⟩
      ⟨[{ ada with password := "$2b$10$changed" }], []⟩ (asAda "" (.obj [])) rfl).2.1,
   rfl⟩

/-! ## Signup normalisation and the user update schema -/

/-- C14 fails on the code: the payload with username `Ada` and email `Ada@X.com`
passes validation, is not found to collide with the stored user `ada` / `ada@x.com`,
and is stored with username `Ada` and email `Ada@X.com`, not with the lower-cased forms
`ada` and `ada@x.com` the schema defines. -/
theorem signup_stores_submitted_case :
    safeParse (userSignUpSchema sampleEnv)
      (signupBody "Ada" "Ada" "L" "secret1" "Ada@X.com" ["tech", "music", "art"]) = [] ∧
    (signup sampleEnv ⟨[ada], []⟩
      { body := signupBody "Ada" "Ada" "L" "secret1" "Ada@X.com" ["tech", "music", "art"] }
      ).1.status = 200 ∧
    (signup sampleEnv ⟨[ada], []⟩
      { body := signupBody "Ada" "Ada" "L" "secret1" "Ada@X.com" ["tech", "music", "art"] }
      ).2.users.map (fun u => (u.username, u.email)) =
      [("ada", "ada@x.com"), ("Ada", "Ada@X.com")] ∧
    sampleEnv.toLowerCase (jsTrim "Ada") = "ada" ∧
    sampleEnv.toLowerCase (jsTrim "Ada@X.com") = "ada@x.com" :=
  ⟨rfl, rfl, rfl, rfl, rfl⟩

theorem parseElements_enum_valid (values : List String) (path : List Seg)
    (prefs : List String) (h : ∀ p ∈ prefs, p ∈ values) (i : Nat) :
    parseElements (zEnum values) path i (prefs.map Json.str) = ⟨[], false⟩ := by
  induction prefs generalizing i with
  | nil => rfl
  | cons p ps ih =>
    have hp : p ∈ values := h p (by simp)
    have hps := ih (fun q hq => h q (by simp [hq])) (i + 1)
    simp [parseElements, zEnum, hp, hps]

theorem everyIncluded_valid (env : Env) (prefs : List String)
    (h : ∀ p ∈ prefs, p ∈ env.PREFERENCES) :
    everyIncluded env (.arr (prefs.map Json.str)) = true := by
  simp only [everyIncluded, List.all_eq_true, List.mem_map]
  rintro x ⟨p, hp, rfl⟩
  simpa using h p hp

theorem preferences_issues_of_missing_or_short (env : Env) (path : List Seg)
    (v : Option Json)
    (h : v = none ∨ ∃ xs, v = some (.arr xs) ∧ xs.length < 3) :
    (zRefine (zArray (zEnum env.PREFERENCES)
        (some (3, "Atleast 3 preferences must be selected")))
      (everyIncluded env) (preferencesMessage env) path v).issues ≠ [] := by
  rcases h with rfl | ⟨xs, rfl, hlen⟩
  · simp [zRefine, zArray]
  · simp only [zRefine, zArray, hlen, if_true]
    split
    · simp
    · split <;> simp


theorem userUpdateSchema_rejects (env : Env) (body : Json)
    (h : body.get? "preferences" = none ∨
      ∃ xs, body.get? "preferences" = some (.arr xs) ∧ xs.length < 3) :
    ∃ error rest, safeParse (userUpdateSchema env) body = error :: rest := by
  cases hparse : safeParse (userUpdateSchema env) body with
  | cons error rest => exact ⟨error, rest, rfl⟩
  | nil =>
    exfalso
    cases body with
    | obj fields =>
      simp only [safeParse, userUpdateSchema, zObject, parseShape, List.append_eq_nil,
        List.nil_append] at hparse
      exact preferences_issues_of_missing_or_short env _ _ h hparse.2.2.2.1
    | _ => simp [safeParse, userUpdateSchema, zObject] at hparse

/-- C15: a user update whose body has no `preferences` field, or whose `preferences`
array has fewer than three entries, is answered 400 and writes nothing, whatever else
the body holds; a body that omits `username`, `name` and `email` and gives three or
more preferences of the vocabulary passes validation and is not answered 400. -/
theorem userUpdate_requires_preferences (env : Env) (store : Store) (req : Request) :
    ((req.body.get? "preferences" = none ∨
        ∃ xs, req.body.get? "preferences" = some (.arr xs) ∧ xs.length < 3) →
      (userUpdate env store req).1.status = 400 ∧ (userUpdate env store req).2 = store) ∧
    (∀ (fields : List (String × Json)) (prefs : List String),
      req.body = .obj fields →
      Json.lookup "username" fields = none → Json.lookup "name" fields = none →
      Json.lookup "email" fields = none →
      Json.lookup "preferences" fields = some (.arr (prefs.map Json.str)) →
      3 ≤ prefs.length → (∀ p ∈ prefs, p ∈ env.PREFERENCES) →
      safeParse (userUpdateSchema env) req.body = [] ∧
      (userUpdate env store req).1.status ≠ 400) := by
  constructor
  · intro h
    obtain ⟨error, rest, hparse⟩ := userUpdateSchema_rejects env req.body h
    simp [userUpdate, hparse, validationFailure]
  · intro fields prefs hbody hu hn he hp hlen hall
    have hshort : ¬ prefs.length < 3 := by omega
    have hparse : safeParse (userUpdateSchema env) req.body = [] := by
      rw [hbody]
      simp [safeParse, userUpdateSchema, zObject, parseShape, Json.get?, hu, hn, he, hp,
        zOptional, zRefine, zArray, hshort, parseElements_enum_valid _ _ _ hall,
        everyIncluded_valid env prefs hall]
    refine ⟨hparse, ?_⟩
    cases hupd : updateUser env store req.userId req.body <;>
      simp [userUpdate, hparse, hupd, internalError]

theorem userUpdate_requires_preferences_witness :
    (updateBody "ada2" ["tech", "art"]).get? "preferences" =
      some (.arr [.str "tech", .str "art"]) ∧
    (userUpdate sampleEnv ⟨[ada], []⟩ (asAda "" (updateBody "ada2" ["tech", "art"]))).1.status
      = 400 ∧
    (userUpdate sampleEnv ⟨[ada], []⟩ (asAda "" (updateBody "ada2" ["tech", "art"]))).2.users.map
      (fun u => u.username) = ["ada"] ∧
    safeParse (userUpdateSchema sampleEnv)
      (.obj [("preferences", .arr (["tech", "art", "music"].map Json.str))]) = [] := by
  have h := userUpdate_requires_preferences sampleEnv ⟨[ada], []⟩
    (asAda "" (updateBody "ada2" ["tech", "art"]))
  have h1 := h.1 (Or.inr ⟨[.str "tech", .str "art"], rfl, by decide⟩)
  have h2 := (userUpdate_requires_preferences sampleEnv ⟨[ada], []⟩
    (asAda "" (.obj [("preferences", .arr (["tech", "art", "music"].map Json.str))]))).2
    [("preferences", .arr (["tech", "art", "music"].map Json.str))] ["tech", "art", "music"]
    rfl rfl rfl rfl rfl (by decide) (by decide)
  exact ⟨rfl, h1.1, by rw [h1.2]; rfl, h2.1⟩


end BlogApp
